import Mathlib

/-!
Shallow embedding of the Cortex tensor runtime
(src/runtime/src/cortex.c and src/runtime/include/cortex.h).

Modelling conventions:
* C doubles (cortex_float_t) are modelled exactly as real numbers; the libm
  functions exp, log, sqrt, tanh, pow are modelled by their exact real
  counterparts Real.exp, Real.log, Real.sqrt, Real.tanh, Real.rpow.
* Allocation always succeeds in the model: the malloc/calloc failure paths of
  cortex_malloc and cortex_calloc (cortex.c lines 19-33) are not modelled.
* The process-wide error slot g_error_message (cortex.c line 16) is threaded
  explicitly as a state value of type Option String; cortex_set_error
  overwrites it, as the C function frees the old string and strdups the new.
* A tensor pointer argument is an Option: none models a NULL pointer.
* The stored fields ndim and size of cortex_tensor_t are recovered as
  shape.length and shape.prod, which is how cortex_tensor_create computes
  them (cortex.c lines 45-57); every tensor the engine produces keeps
  size == product of extents.  The invariant data.length == size carried by
  every engine-produced tensor is the well-formedness predicate Wf below;
  loops of the C code run for size iterations over the data buffer, which is
  rendered with data.take size (equal to data itself under Wf).
-/

noncomputable section

/-- cortex.h line 20: typedef double cortex_float_t, modelled exactly. -/
abbrev cortex_float_t := ℝ

/-- The global error slot g_error_message: none models the NULL pointer. -/
abbrev cortex_error_state := Option String

/-- cortex.h lines 25-31: the tensor record.  data is the flat, row-major
buffer; shape the per-axis extents; ndim and size are derived below. -/
structure cortex_tensor_t where
  data : List cortex_float_t
  shape : List ℕ
  requires_grad : Bool

/-- Stored field ndim: the number of axes (= length of shape). -/
def cortex_tensor_t.ndim (t : cortex_tensor_t) : ℕ :=
  t.shape.length

/-- Stored field size: cortex_tensor_create computes it as the product of the
extents (cortex.c lines 54-57). -/
def cortex_tensor_t.size (t : cortex_tensor_t) : ℕ :=
  t.shape.prod

/-- Well-formedness of an engine-produced tensor: the buffer holds exactly
size elements and there is at least one axis (create rejects ndim <= 0). -/
def cortex_tensor_t.Wf (t : cortex_tensor_t) : Prop :=
  t.data.length = t.size ∧ t.shape ≠ []

/-- cortex.c lines 671-676: frees the previous message and stores the new
one, so the slot is overwritten unconditionally. -/
def cortex_set_error (message : String) (_s : cortex_error_state) : cortex_error_state :=
  some message

/-- cortex.c lines 678-680. -/
def cortex_get_error (s : cortex_error_state) : Option String :=
  s

/-- cortex.c lines 682-687. -/
def cortex_clear_error (_s : cortex_error_state) : cortex_error_state :=
  none

/-- cortex.c lines 36-68: cortex_tensor_create.  The shape array together
with its ndim count is modelled as the list of extents (a NULL shape or
ndim <= 0 corresponds to the empty list); the buffer is calloc-zeroed. -/
def cortex_tensor_create (shape : List ℕ) (s : cortex_error_state) :
    Option cortex_tensor_t × cortex_error_state :=
  if shape.length = 0 then
    (none, cortex_set_error "Invalid tensor shape" s)
  else
    (some ⟨List.replicate shape.prod 0, shape, false⟩, s)

/-- cortex.c lines 78-91: cortex_tensor_copy.  create with the same shape,
then memcpy of size elements of the data buffer, then the requires_grad
flag is copied.  The memcpy of size elements is data.take size, which is the
whole buffer for a well-formed source. -/
def cortex_tensor_copy (t? : Option cortex_tensor_t) (s : cortex_error_state) :
    Option cortex_tensor_t × cortex_error_state :=
  match t? with
  | none => (none, cortex_set_error "Cannot copy NULL tensor" s)
  | some t =>
    match cortex_tensor_create t.shape s with
    | (none, s1) => (none, s1)
    | (some c, s1) =>
      (some { c with data := t.data.take t.size, requires_grad := t.requires_grad }, s1)

/-- cortex.c lines 94-100: cortex_zeros is create (calloc already zeroes). -/
def cortex_zeros (shape : List ℕ) (s : cortex_error_state) :
    Option cortex_tensor_t × cortex_error_state :=
  cortex_tensor_create shape s

/-- cortex.c lines 102-111: cortex_ones fills every element with 1.0. -/
def cortex_ones (shape : List ℕ) (s : cortex_error_state) :
    Option cortex_tensor_t × cortex_error_state :=
  match cortex_tensor_create shape s with
  | (none, s1) => (none, s1)
  | (some t, s1) => (some { t with data := List.replicate t.size 1 }, s1)

/-- cortex.c lines 157-176: cortex_tensor_add.  Guards: either operand NULL,
then size mismatch; the result is seeded as a copy of a and the loop adds
b.data[i] for i < size, rendered as zipWith over the copied buffer. -/
def cortex_tensor_add (a? b? : Option cortex_tensor_t) (s : cortex_error_state) :
    Option cortex_tensor_t × cortex_error_state :=
  match a?, b? with
  | none, _ => (none, cortex_set_error "Cannot add NULL tensors" s)
  | some _, none => (none, cortex_set_error "Cannot add NULL tensors" s)
  | some a, some b =>
    if a.size ≠ b.size then
      (none, cortex_set_error "Tensor size mismatch for addition" s)
    else
      match cortex_tensor_copy (some a) s with
      | (none, s1) => (none, s1)
      | (some r, s1) =>
        (some { r with data := List.zipWith (fun x y => x + y) r.data b.data }, s1)

/-- cortex.c lines 178-197: cortex_tensor_subtract, same shape as add. -/
def cortex_tensor_subtract (a? b? : Option cortex_tensor_t) (s : cortex_error_state) :
    Option cortex_tensor_t × cortex_error_state :=
  match a?, b? with
  | none, _ => (none, cortex_set_error "Cannot subtract NULL tensors" s)
  | some _, none => (none, cortex_set_error "Cannot subtract NULL tensors" s)
  | some a, some b =>
    if a.size ≠ b.size then
      (none, cortex_set_error "Tensor size mismatch for subtraction" s)
    else
      match cortex_tensor_copy (some a) s with
      | (none, s1) => (none, s1)
      | (some r, s1) =>
        (some { r with data := List.zipWith (fun x y => x - y) r.data b.data }, s1)

/-- cortex.c lines 199-218: cortex_tensor_multiply. -/
def cortex_tensor_multiply (a? b? : Option cortex_tensor_t) (s : cortex_error_state) :
    Option cortex_tensor_t × cortex_error_state :=
  match a?, b? with
  | none, _ => (none, cortex_set_error "Cannot multiply NULL tensors" s)
  | some _, none => (none, cortex_set_error "Cannot multiply NULL tensors" s)
  | some a, some b =>
    if a.size ≠ b.size then
      (none, cortex_set_error "Tensor size mismatch for multiplication" s)
    else
      match cortex_tensor_copy (some a) s with
      | (none, s1) => (none, s1)
      | (some r, s1) =>
        (some { r with data := List.zipWith (fun x y => x * y) r.data b.data }, s1)

/-- The division loop of cortex_tensor_divide (cortex.c lines 234-241): at
each position the divisor is compared with 0.0 first; on a zero the partial
result is freed and the loop aborts with no result.  The second arm (result
elements remaining but divisor buffer exhausted) is unreachable for
well-formed operands of equal size; in C it would be an out-of-bounds read. -/
def cortex_divide_loop : List cortex_float_t → List cortex_float_t →
    Option (List cortex_float_t)
  | [], _ => some []
  | _ :: _, [] => none
  | a :: as, b :: bs =>
    if b = 0 then none
    else Option.map (fun l => a / b :: l) (cortex_divide_loop as bs)

/-- cortex.c lines 220-244: cortex_tensor_divide.  Guards as for add; the
loop checks each divisor element for 0.0 and on the first zero sets the
error, frees the partial result and returns NULL. -/
def cortex_tensor_divide (a? b? : Option cortex_tensor_t) (s : cortex_error_state) :
    Option cortex_tensor_t × cortex_error_state :=
  match a?, b? with
  | none, _ => (none, cortex_set_error "Cannot divide NULL tensors" s)
  | some _, none => (none, cortex_set_error "Cannot divide NULL tensors" s)
  | some a, some b =>
    if a.size ≠ b.size then
      (none, cortex_set_error "Tensor size mismatch for division" s)
    else
      match cortex_tensor_copy (some a) s with
      | (none, s1) => (none, s1)
      | (some r, s1) =>
        match cortex_divide_loop r.data b.data with
        | none => (none, cortex_set_error "Division by zero" s1)
        | some l => (some { r with data := l }, s1)

/-- cortex.c lines 246-265: cortex_tensor_power.  pow(a_i, b_i) is modelled
by the real power Real.rpow; domain errors of C pow produce NaN and are not
failures, and no claim below depends on the value pow returns. -/
def cortex_tensor_power (a? b? : Option cortex_tensor_t) (s : cortex_error_state) :
    Option cortex_tensor_t × cortex_error_state :=
  match a?, b? with
  | none, _ => (none, cortex_set_error "Cannot raise NULL tensors to power" s)
  | some _, none => (none, cortex_set_error "Cannot raise NULL tensors to power" s)
  | some a, some b =>
    if a.size ≠ b.size then
      (none, cortex_set_error "Tensor size mismatch for power operation" s)
    else
      match cortex_tensor_copy (some a) s with
      | (none, s1) => (none, s1)
      | (some r, s1) =>
        (some { r with data := List.zipWith (fun x y => Real.rpow x y) r.data b.data }, s1)

/-- cortex.c lines 268-282: cortex_tensor_add_scalar. -/
def cortex_tensor_add_scalar (t? : Option cortex_tensor_t) (scalar : cortex_float_t)
    (s : cortex_error_state) : Option cortex_tensor_t × cortex_error_state :=
  match t? with
  | none => (none, cortex_set_error "Cannot add scalar to NULL tensor" s)
  | some t =>
    match cortex_tensor_copy (some t) s with
    | (none, s1) => (none, s1)
    | (some r, s1) => (some { r with data := r.data.map (fun x => x + scalar) }, s1)

/-- cortex.c lines 284-298: cortex_tensor_multiply_scalar. -/
def cortex_tensor_multiply_scalar (t? : Option cortex_tensor_t) (scalar : cortex_float_t)
    (s : cortex_error_state) : Option cortex_tensor_t × cortex_error_state :=
  match t? with
  | none => (none, cortex_set_error "Cannot multiply NULL tensor by scalar" s)
  | some t =>
    match cortex_tensor_copy (some t) s with
    | (none, s1) => (none, s1)
    | (some r, s1) => (some { r with data := r.data.map (fun x => x * scalar) }, s1)

/-- cortex.c lines 301-332: cortex_tensor_matmul.  Element reads a.data[i*n+k]
and b.data[k*p+j] are in bounds for well-formed 2-D operands; getD renders
the unchecked C indexing (the default is never taken in bounds). -/
def cortex_tensor_matmul (a? b? : Option cortex_tensor_t) (s : cortex_error_state) :
    Option cortex_tensor_t × cortex_error_state :=
  match a?, b? with
  | none, _ => (none, cortex_set_error "Cannot multiply NULL tensors" s)
  | some _, none => (none, cortex_set_error "Cannot multiply NULL tensors" s)
  | some a, some b =>
    if a.ndim ≠ 2 ∨ b.ndim ≠ 2 then
      (none, cortex_set_error "Matrix multiplication requires 2D tensors" s)
    else if a.shape.getD 1 0 ≠ b.shape.getD 0 0 then
      (none, cortex_set_error "Matrix dimension mismatch for multiplication" s)
    else
      let m := a.shape.getD 0 0
      let n := a.shape.getD 1 0
      let p := b.shape.getD 1 0
      let rows := (List.range m).map (fun i =>
        (List.range p).map (fun j =>
          ((List.range n).map (fun k =>
            a.data.getD (i * n + k) 0 * b.data.getD (k * p + j) 0)).sum))
      (some ⟨rows.flatten, [m, p], false⟩, s)

/-- cortex.c lines 334-356: cortex_tensor_transpose. -/
def cortex_tensor_transpose (t? : Option cortex_tensor_t) (s : cortex_error_state) :
    Option cortex_tensor_t × cortex_error_state :=
  match t? with
  | none => (none, cortex_set_error "Cannot transpose NULL tensor" s)
  | some t =>
    if t.ndim ≠ 2 then
      (none, cortex_set_error "Transpose requires 2D tensor" s)
    else
      let rows := t.shape.getD 0 0
      let cols := t.shape.getD 1 0
      let out := (List.range cols).map (fun j =>
        (List.range rows).map (fun i => t.data.getD (i * cols + j) 0))
      (some ⟨out.flatten, [cols, rows], false⟩, s)

/-- cortex.c lines 359-373: cortex_tensor_exp. -/
def cortex_tensor_exp (t? : Option cortex_tensor_t) (s : cortex_error_state) :
    Option cortex_tensor_t × cortex_error_state :=
  match t? with
  | none => (none, cortex_set_error "Cannot compute exp of NULL tensor" s)
  | some t =>
    match cortex_tensor_copy (some t) s with
    | (none, s1) => (none, s1)
    | (some r, s1) => (some { r with data := r.data.map (fun x => Real.exp x) }, s1)

/-- The loop of cortex_tensor_log (cortex.c lines 384-391): each element
x <= 0.0 aborts with no result (the partial result is freed in C). -/
def cortex_log_loop : List cortex_float_t → Option (List cortex_float_t)
  | [] => some []
  | a :: as =>
    if a ≤ 0 then none
    else Option.map (fun l => Real.log a :: l) (cortex_log_loop as)

/-- cortex.c lines 375-394: cortex_tensor_log. -/
def cortex_tensor_log (t? : Option cortex_tensor_t) (s : cortex_error_state) :
    Option cortex_tensor_t × cortex_error_state :=
  match t? with
  | none => (none, cortex_set_error "Cannot compute log of NULL tensor" s)
  | some t =>
    match cortex_tensor_copy (some t) s with
    | (none, s1) => (none, s1)
    | (some r, s1) =>
      match cortex_log_loop r.data with
      | none => (none, cortex_set_error "Log of non-positive number" s1)
      | some l => (some { r with data := l }, s1)

/-- The loop of cortex_tensor_sqrt (cortex.c lines 405-412): each element
x < 0.0 aborts with no result. -/
def cortex_sqrt_loop : List cortex_float_t → Option (List cortex_float_t)
  | [] => some []
  | a :: as =>
    if a < 0 then none
    else Option.map (fun l => Real.sqrt a :: l) (cortex_sqrt_loop as)

/-- cortex.c lines 396-415: cortex_tensor_sqrt. -/
def cortex_tensor_sqrt (t? : Option cortex_tensor_t) (s : cortex_error_state) :
    Option cortex_tensor_t × cortex_error_state :=
  match t? with
  | none => (none, cortex_set_error "Cannot compute sqrt of NULL tensor" s)
  | some t =>
    match cortex_tensor_copy (some t) s with
    | (none, s1) => (none, s1)
    | (some r, s1) =>
      match cortex_sqrt_loop r.data with
      | none => (none, cortex_set_error "Sqrt of negative number" s1)
      | some l => (some { r with data := l }, s1)

/-- cortex.c lines 418-432: cortex_tensor_relu, fmax(0.0, x) per element. -/
def cortex_tensor_relu (t? : Option cortex_tensor_t) (s : cortex_error_state) :
    Option cortex_tensor_t × cortex_error_state :=
  match t? with
  | none => (none, cortex_set_error "Cannot compute ReLU of NULL tensor" s)
  | some t =>
    match cortex_tensor_copy (some t) s with
    | (none, s1) => (none, s1)
    | (some r, s1) => (some { r with data := r.data.map (fun x => max 0 x) }, s1)

/-- cortex.c lines 434-448: cortex_tensor_sigmoid, 1/(1+exp(-x)). -/
def cortex_tensor_sigmoid (t? : Option cortex_tensor_t) (s : cortex_error_state) :
    Option cortex_tensor_t × cortex_error_state :=
  match t? with
  | none => (none, cortex_set_error "Cannot compute sigmoid of NULL tensor" s)
  | some t =>
    match cortex_tensor_copy (some t) s with
    | (none, s1) => (none, s1)
    | (some r, s1) =>
      (some { r with data := r.data.map (fun x => 1 / (1 + Real.exp (-x))) }, s1)

/-- cortex.c lines 450-464: cortex_tensor_tanh. -/
def cortex_tensor_tanh (t? : Option cortex_tensor_t) (s : cortex_error_state) :
    Option cortex_tensor_t × cortex_error_state :=
  match t? with
  | none => (none, cortex_set_error "Cannot compute tanh of NULL tensor" s)
  | some t =>
    match cortex_tensor_copy (some t) s with
    | (none, s1) => (none, s1)
    | (some r, s1) => (some { r with data := r.data.map (fun x => Real.tanh x) }, s1)

/-- cortex.c lines 466-496: cortex_tensor_softmax.  After the copy the C
code reads result->data[0] unconditionally (line 476) to seed the maximum;
when size == 0 that read is out of bounds — undefined behavior, modelled as
the absence of a result with the error slot untouched.  For a non-empty
buffer: global maximum by linear scan, exponentials of the shifted values,
normalization by their sum. -/
def cortex_tensor_softmax (t? : Option cortex_tensor_t) (s : cortex_error_state) :
    Option cortex_tensor_t × cortex_error_state :=
  match t? with
  | none => (none, cortex_set_error "Cannot compute softmax of NULL tensor" s)
  | some t =>
    match cortex_tensor_copy (some t) s with
    | (none, s1) => (none, s1)
    | (some r, s1) =>
      match r.data with
      | [] => (none, s1)
      | d0 :: rest =>
        let max_val := rest.foldl (fun acc x => max acc x) d0
        let exps := (d0 :: rest).map (fun x => Real.exp (x - max_val))
        let sum := exps.sum
        (some { r with data := exps.map (fun x => x / sum) }, s1)

/-- cortex.c lines 567-579: cortex_tensor_sum.  Only the NULL check guards
it; the loop accumulates size elements (fold direction is immaterial in the
exact model, addition being commutative and associative). -/
def cortex_tensor_sum (t? : Option cortex_tensor_t) (s : cortex_error_state) :
    cortex_float_t × cortex_error_state :=
  match t? with
  | none => (0, cortex_set_error "Cannot compute sum of NULL tensor" s)
  | some t => ((t.data.take t.size).sum, s)

/-- cortex.c lines 499-506: cortex_tensor_mean = sum / size with only a NULL
check; the division is unguarded, so size == 0 divides by zero (IEEE NaN in
C; the real-division convention value 0 stands in for it here — no theorem
below depends on the value of this quotient, only on the error channel). -/
def cortex_tensor_mean (t? : Option cortex_tensor_t) (s : cortex_error_state) :
    cortex_float_t × cortex_error_state :=
  match t? with
  | none => (0, cortex_set_error "Cannot compute mean of NULL tensor" s)
  | some t =>
    match cortex_tensor_sum (some t) s with
    | (sum, s1) => (sum / (t.size : cortex_float_t), s1)

/-- cortex.c lines 508-523: cortex_tensor_std = sqrt(mean of squared
deviations), population form; again the division by size is unguarded. -/
def cortex_tensor_std (t? : Option cortex_tensor_t) (s : cortex_error_state) :
    cortex_float_t × cortex_error_state :=
  match t? with
  | none => (0, cortex_set_error "Cannot compute std of NULL tensor" s)
  | some t =>
    match cortex_tensor_mean (some t) s with
    | (mean_val, s1) =>
      let sum_sq_diff :=
        ((t.data.take t.size).map (fun x => (x - mean_val) * (x - mean_val))).sum
      (Real.sqrt (sum_sq_diff / (t.size : cortex_float_t)), s1)

/-- cortex.c lines 525-533: cortex_tensor_var = std * std. -/
def cortex_tensor_var (t? : Option cortex_tensor_t) (s : cortex_error_state) :
    cortex_float_t × cortex_error_state :=
  match t? with
  | none => (0, cortex_set_error "Cannot compute variance of NULL tensor" s)
  | some t =>
    match cortex_tensor_std (some t) s with
    | (std_val, s1) => (std_val * std_val, s1)

/-- cortex.c lines 535-549: cortex_tensor_min rejects NULL and size == 0,
then scans with the first element as seed.  The inner empty-buffer arm is
unreachable when the size invariant holds (in C it would be an out-of-bounds
read of data[0]). -/
def cortex_tensor_min (t? : Option cortex_tensor_t) (s : cortex_error_state) :
    cortex_float_t × cortex_error_state :=
  match t? with
  | none => (0, cortex_set_error "Cannot compute min of NULL or empty tensor" s)
  | some t =>
    if t.size = 0 then
      (0, cortex_set_error "Cannot compute min of NULL or empty tensor" s)
    else
      match t.data.take t.size with
      | [] => (0, s)
      | d0 :: rest => (rest.foldl (fun acc x => min acc x) d0, s)

/-- cortex.c lines 551-565: cortex_tensor_max, dual to min. -/
def cortex_tensor_max (t? : Option cortex_tensor_t) (s : cortex_error_state) :
    cortex_float_t × cortex_error_state :=
  match t? with
  | none => (0, cortex_set_error "Cannot compute max of NULL or empty tensor" s)
  | some t =>
    if t.size = 0 then
      (0, cortex_set_error "Cannot compute max of NULL or empty tensor" s)
    else
      match t.data.take t.size with
      | [] => (0, s)
      | d0 :: rest => (rest.foldl (fun acc x => max acc x) d0, s)

/-- cortex.c lines 582-600: cortex_mse_loss. -/
def cortex_mse_loss (p? t? : Option cortex_tensor_t) (s : cortex_error_state) :
    cortex_float_t × cortex_error_state :=
  match p?, t? with
  | none, _ => (0, cortex_set_error "Cannot compute MSE loss of NULL tensors" s)
  | some _, none => (0, cortex_set_error "Cannot compute MSE loss of NULL tensors" s)
  | some p, some t =>
    if p.size ≠ t.size then
      (0, cortex_set_error "Tensor size mismatch for MSE loss" s)
    else
      let sum_sq_diff :=
        (List.zipWith (fun x y => (x - y) * (x - y))
          (p.data.take p.size) (t.data.take p.size)).sum
      (sum_sq_diff / (p.size : cortex_float_t), s)

/-- cortex.c lines 602-621: cortex_cross_entropy_loss; elements with
pred_i <= 0 contribute nothing (the stability guard at line 615). -/
def cortex_cross_entropy_loss (p? t? : Option cortex_tensor_t) (s : cortex_error_state) :
    cortex_float_t × cortex_error_state :=
  match p?, t? with
  | none, _ => (0, cortex_set_error "Cannot compute cross-entropy loss of NULL tensors" s)
  | some _, none => (0, cortex_set_error "Cannot compute cross-entropy loss of NULL tensors" s)
  | some p, some t =>
    if p.size ≠ t.size then
      (0, cortex_set_error "Tensor size mismatch for cross-entropy loss" s)
    else
      let loss :=
        (List.zipWith (fun x y => if 0 < x then -(y * Real.log x) else 0)
          (p.data.take p.size) (t.data.take p.size)).sum
      (loss / (p.size : cortex_float_t), s)

/-- cortex.c lines 623-646: cortex_binary_cross_entropy_loss with the
clamp of each prediction into the interval from 1e-8 to 1 - 1e-8. -/
def cortex_binary_cross_entropy_loss (p? t? : Option cortex_tensor_t)
    (s : cortex_error_state) : cortex_float_t × cortex_error_state :=
  match p?, t? with
  | none, _ =>
    (0, cortex_set_error "Cannot compute binary cross-entropy loss of NULL tensors" s)
  | some _, none =>
    (0, cortex_set_error "Cannot compute binary cross-entropy loss of NULL tensors" s)
  | some p, some t =>
    if p.size ≠ t.size then
      (0, cortex_set_error "Tensor size mismatch for binary cross-entropy loss" s)
    else
      let loss :=
        (List.zipWith
          (fun x y =>
            let c := max (1e-8) (min (1 - 1e-8) x);
            -(y * Real.log c + (1 - y) * Real.log (1 - c)))
          (p.data.take p.size) (t.data.take p.size)).sum
      (loss / (p.size : cortex_float_t), s)

/-- Modelled from the spec: cortex_tensor_reshape is declared at
include/cortex.h line 101 but has no definition anywhere under src/.
Spec section 4.7 gives its contract, followed here word for word: valid only
if the new shape's element product equals t.size (else ShapeMismatch);
produces a tensor sharing no storage with t (a fresh buffer, data copied)
but with the new axis layout — reshape never reorders elements, it only
reinterprets the flat buffer under a new shape.  The new_shape/new_ndim
pair is modelled as the list of new extents, as for create. -/
def cortex_tensor_reshape (t? : Option cortex_tensor_t) (new_shape : List ℕ)
    (s : cortex_error_state) : Option cortex_tensor_t × cortex_error_state :=
  match t? with
  | none => (none, cortex_set_error "Cannot reshape NULL tensor" s)
  | some t =>
    if new_shape.prod ≠ t.size then
      (none, cortex_set_error "Tensor size mismatch for reshape" s)
    else
      (some ⟨t.data.take t.size, new_shape, t.requires_grad⟩, s)

/-- Error contract of a tensor-returning operation (claim C8): the slot is
untouched when a tensor is returned and overwritten with some message when
no tensor is returned. -/
def err_contract (run : cortex_error_state → Option cortex_tensor_t × cortex_error_state) :
    Prop :=
  ∀ s, ((run s).1.isSome → (run s).2 = s) ∧ ((run s).1 = none → ∃ m, (run s).2 = some m)

/-- Error contract of a scalar-returning operation: given its failure
condition, the slot is overwritten exactly when the condition holds. -/
def scalar_err_contract (fails : Prop)
    (run : cortex_error_state → cortex_float_t × cortex_error_state) : Prop :=
  ∀ s, (fails → ∃ m, (run s).2 = some m) ∧ (¬ fails → (run s).2 = s)

/-! ## Helper lemmas -/

theorem cortex_tensor_t.Wf.take_data {t : cortex_tensor_t} (h : t.Wf) :
    t.data.take t.size = t.data := by
  rw [← h.1]
  exact List.take_length t.data

theorem cortex_tensor_copy_some (t : cortex_tensor_t) (s : cortex_error_state)
    (h : t.shape ≠ []) :
    cortex_tensor_copy (some t) s =
      (some ⟨t.data.take t.size, t.shape, t.requires_grad⟩, s) := by
  have h0 : ¬ t.shape.length = 0 := by
    simpa [List.length_eq_zero] using h
  simp [cortex_tensor_copy, cortex_tensor_create, h0]

theorem cortex_tensor_copy_noshape (t : cortex_tensor_t) (s : cortex_error_state)
    (h : t.shape = []) :
    cortex_tensor_copy (some t) s = (none, some "Invalid tensor shape") := by
  simp [cortex_tensor_copy, cortex_tensor_create, cortex_set_error, h]

theorem zipWith_add_sub_cancel (l1 l2 : List cortex_float_t) (h : l1.length = l2.length) :
    List.zipWith (fun x y => x - y) (List.zipWith (fun x y => x + y) l1 l2) l2 = l1 := by
  induction l1 generalizing l2 with
  | nil => simp
  | cons x xs ih =>
    cases l2 with
    | nil => simp at h
    | cons y ys =>
      simp [ih ys (by simpa using h)]

theorem cortex_divide_loop_eq_none (as bs : List cortex_float_t)
    (h : as.length = bs.length) :
    cortex_divide_loop as bs = none ↔ ∃ x ∈ bs, x = 0 := by
  induction as generalizing bs with
  | nil =>
    cases bs with
    | nil => simp [cortex_divide_loop]
    | cons y ys => simp at h
  | cons a as ih =>
    cases bs with
    | nil => simp at h
    | cons b bs =>
      by_cases hb : b = 0
      · simp [cortex_divide_loop, hb]
      · simp [cortex_divide_loop, hb, Ne.symm hb, ih bs (by simpa using h)]

theorem cortex_divide_loop_eq_some (as bs : List cortex_float_t)
    (hlen : as.length = bs.length) (h : ∀ x ∈ bs, x ≠ 0) :
    cortex_divide_loop as bs = some (List.zipWith (fun x y => x / y) as bs) := by
  induction as generalizing bs with
  | nil =>
    cases bs with
    | nil => simp [cortex_divide_loop]
    | cons y ys => simp at hlen
  | cons a as ih =>
    cases bs with
    | nil => simp at hlen
    | cons b bs =>
      have hb : b ≠ 0 := h b (by simp)
      simp [cortex_divide_loop, hb,
        ih bs (by simpa using hlen) (fun x hx => h x (by simp [hx]))]

theorem cortex_tensor_add_some (a b : cortex_tensor_t) (s : cortex_error_state)
    (ha : a.Wf) (hsz : a.size = b.size) :
    cortex_tensor_add (some a) (some b) s =
      (some ⟨List.zipWith (fun x y => x + y) a.data b.data, a.shape,
        a.requires_grad⟩, s) := by
  have htake : a.data.take b.size = a.data := hsz ▸ ha.take_data
  simp [cortex_tensor_add, hsz, cortex_tensor_copy_some a s ha.2, ha.take_data, htake]

theorem cortex_tensor_subtract_some (a b : cortex_tensor_t) (s : cortex_error_state)
    (ha : a.Wf) (hsz : a.size = b.size) :
    cortex_tensor_subtract (some a) (some b) s =
      (some ⟨List.zipWith (fun x y => x - y) a.data b.data, a.shape,
        a.requires_grad⟩, s) := by
  have htake : a.data.take b.size = a.data := hsz ▸ ha.take_data
  simp [cortex_tensor_subtract, hsz, cortex_tensor_copy_some a s ha.2, ha.take_data, htake]

theorem cortex_tensor_multiply_some (a b : cortex_tensor_t) (s : cortex_error_state)
    (ha : a.Wf) (hsz : a.size = b.size) :
    cortex_tensor_multiply (some a) (some b) s =
      (some ⟨List.zipWith (fun x y => x * y) a.data b.data, a.shape,
        a.requires_grad⟩, s) := by
  have htake : a.data.take b.size = a.data := hsz ▸ ha.take_data
  simp [cortex_tensor_multiply, hsz, cortex_tensor_copy_some a s ha.2, ha.take_data, htake]

theorem cortex_tensor_power_some (a b : cortex_tensor_t) (s : cortex_error_state)
    (ha : a.Wf) (hsz : a.size = b.size) :
    cortex_tensor_power (some a) (some b) s =
      (some ⟨List.zipWith (fun x y => Real.rpow x y) a.data b.data, a.shape,
        a.requires_grad⟩, s) := by
  have htake : a.data.take b.size = a.data := hsz ▸ ha.take_data
  simp [cortex_tensor_power, hsz, cortex_tensor_copy_some a s ha.2, ha.take_data, htake]

theorem cortex_tensor_divide_red (a b : cortex_tensor_t) (s : cortex_error_state)
    (ha : a.Wf) (hsz : a.size = b.size) :
    cortex_tensor_divide (some a) (some b) s =
      (match cortex_divide_loop a.data b.data with
       | none => (none, some "Division by zero")
       | some l => (some ⟨l, a.shape, a.requires_grad⟩, s)) := by
  have htake : a.data.take b.size = a.data := hsz ▸ ha.take_data
  simp [cortex_tensor_divide, hsz, cortex_tensor_copy_some a s ha.2, ha.take_data,
    htake, cortex_set_error]

/-! ## Claim C5 -/

/-- Claim C5: for all well-formed equal-size tensors a and b,
subtract(add(a, b), b) recovers a exactly — at every flat position
(a_i + b_i) - b_i = a_i, and shape and requires_grad are those of a, so the
result tensor is a itself (arithmetic is modelled exactly over the reals). -/
theorem C5_add_subtract_inverse (a b : cortex_tensor_t) (s : cortex_error_state)
    (ha : a.Wf) (hb : b.Wf) (hsz : a.size = b.size) :
    cortex_tensor_subtract (cortex_tensor_add (some a) (some b) s).1 (some b)
      (cortex_tensor_add (some a) (some b) s).2 = (some a, s) := by
  have hsha : a.shape ≠ [] := ha.2
  have hlen : a.data.length = b.data.length := by rw [ha.1, hb.1, hsz]
  have htake : a.data.take b.size = a.data := hsz ▸ ha.take_data
  have hadd : cortex_tensor_add (some a) (some b) s =
      (some ⟨List.zipWith (fun x y => x + y) a.data b.data, a.shape, a.requires_grad⟩, s) := by
    simp [cortex_tensor_add, hsz, cortex_tensor_copy_some a s hsha, ha.take_data, htake]
  rw [hadd]
  have hrlen : (List.zipWith (fun x y => x + y) a.data b.data).length = a.data.length := by
    rw [List.length_zipWith, hlen, min_self]
  have hrwf : (⟨List.zipWith (fun x y => x + y) a.data b.data, a.shape,
      a.requires_grad⟩ : cortex_tensor_t).Wf := by
    constructor
    · simpa [cortex_tensor_t.size] using hrlen.trans ha.1
    · exact hsha
  have hcond : (⟨List.zipWith (fun x y => x + y) a.data b.data, a.shape,
      a.requires_grad⟩ : cortex_tensor_t).size = b.size := hsz
  have hsub : cortex_tensor_subtract
      (some ⟨List.zipWith (fun x y => x + y) a.data b.data, a.shape, a.requires_grad⟩)
      (some b) s =
      (some ⟨List.zipWith (fun x y => x - y)
        (List.zipWith (fun x y => x + y) a.data b.data) b.data,
        a.shape, a.requires_grad⟩, s) := by
    have hrt : (List.zipWith (fun x y => x + y) a.data b.data).take b.size =
        List.zipWith (fun x y => x + y) a.data b.data := by
      rw [← hsz]; exact hrwf.take_data
    simp [cortex_tensor_subtract, hcond,
      cortex_tensor_copy_some
        ⟨List.zipWith (fun x y => x + y) a.data b.data, a.shape, a.requires_grad⟩ s hsha,
      hrwf.take_data, hrt]
  simp only [hsub, zipWith_add_sub_cancel a.data b.data hlen]

/-- Witness for C5 at a = ([1], shape [1]), b = ([2], shape [1]). -/
theorem C5_witness :
    cortex_tensor_subtract
      (cortex_tensor_add (some ⟨[1], [1], false⟩) (some ⟨[2], [1], false⟩) none).1
      (some ⟨[2], [1], false⟩)
      (cortex_tensor_add (some ⟨[1], [1], false⟩) (some ⟨[2], [1], false⟩) none).2 =
      (some ⟨[1], [1], false⟩, none) :=
  C5_add_subtract_inverse ⟨[1], [1], false⟩ ⟨[2], [1], false⟩ none
    ⟨rfl, by decide⟩ ⟨rfl, by decide⟩ rfl

/-! ## Claim C10 -/

/-- Claim C10: every unary tensor-to-tensor operation (add_scalar,
multiply_scalar, exp, log, sqrt, relu, sigmoid, tanh, softmax) that succeeds
returns a tensor with the same ndim, the same shape extents, the same size
and the same requires_grad flag as its input, because each seeds its result
as a copy of the input. -/
theorem C10_unary_metadata (t : cortex_tensor_t) (c : cortex_float_t)
    (s : cortex_error_state) :
    (∀ r s1, cortex_tensor_add_scalar (some t) c s = (some r, s1) →
      r.shape = t.shape ∧ r.ndim = t.ndim ∧ r.size = t.size ∧
        r.requires_grad = t.requires_grad) ∧
    (∀ r s1, cortex_tensor_multiply_scalar (some t) c s = (some r, s1) →
      r.shape = t.shape ∧ r.ndim = t.ndim ∧ r.size = t.size ∧
        r.requires_grad = t.requires_grad) ∧
    (∀ r s1, cortex_tensor_exp (some t) s = (some r, s1) →
      r.shape = t.shape ∧ r.ndim = t.ndim ∧ r.size = t.size ∧
        r.requires_grad = t.requires_grad) ∧
    (∀ r s1, cortex_tensor_log (some t) s = (some r, s1) →
      r.shape = t.shape ∧ r.ndim = t.ndim ∧ r.size = t.size ∧
        r.requires_grad = t.requires_grad) ∧
    (∀ r s1, cortex_tensor_sqrt (some t) s = (some r, s1) →
      r.shape = t.shape ∧ r.ndim = t.ndim ∧ r.size = t.size ∧
        r.requires_grad = t.requires_grad) ∧
    (∀ r s1, cortex_tensor_relu (some t) s = (some r, s1) →
      r.shape = t.shape ∧ r.ndim = t.ndim ∧ r.size = t.size ∧
        r.requires_grad = t.requires_grad) ∧
    (∀ r s1, cortex_tensor_sigmoid (some t) s = (some r, s1) →
      r.shape = t.shape ∧ r.ndim = t.ndim ∧ r.size = t.size ∧
        r.requires_grad = t.requires_grad) ∧
    (∀ r s1, cortex_tensor_tanh (some t) s = (some r, s1) →
      r.shape = t.shape ∧ r.ndim = t.ndim ∧ r.size = t.size ∧
        r.requires_grad = t.requires_grad) ∧
    (∀ r s1, cortex_tensor_softmax (some t) s = (some r, s1) →
      r.shape = t.shape ∧ r.ndim = t.ndim ∧ r.size = t.size ∧
        r.requires_grad = t.requires_grad) := by
  refine ⟨?_, ?_, ?_, ?_, ?_, ?_, ?_, ?_, ?_⟩ <;> intro r s1 h <;> by_cases hsh : t.shape = []
  case pos =>
    simp [cortex_tensor_add_scalar, cortex_tensor_copy_noshape t s hsh] at h
  case neg =>
    simp [cortex_tensor_add_scalar, cortex_tensor_copy_some t s hsh] at h
    obtain ⟨rfl, rfl⟩ := h
    exact ⟨rfl, rfl, rfl, rfl⟩
  case pos =>
    simp [cortex_tensor_multiply_scalar, cortex_tensor_copy_noshape t s hsh] at h
  case neg =>
    simp [cortex_tensor_multiply_scalar, cortex_tensor_copy_some t s hsh] at h
    obtain ⟨rfl, rfl⟩ := h
    exact ⟨rfl, rfl, rfl, rfl⟩
  case pos =>
    simp [cortex_tensor_exp, cortex_tensor_copy_noshape t s hsh] at h
  case neg =>
    simp [cortex_tensor_exp, cortex_tensor_copy_some t s hsh] at h
    obtain ⟨rfl, rfl⟩ := h
    exact ⟨rfl, rfl, rfl, rfl⟩
  case pos =>
    simp [cortex_tensor_log, cortex_tensor_copy_noshape t s hsh] at h
  case neg =>
    simp only [cortex_tensor_log, cortex_tensor_copy_some t s hsh] at h
    cases hl : cortex_log_loop (t.data.take t.size) with
    | none => rw [hl] at h; simp at h
    | some l =>
      rw [hl] at h
      simp at h
      obtain ⟨rfl, rfl⟩ := h
      exact ⟨rfl, rfl, rfl, rfl⟩
  case pos =>
    simp [cortex_tensor_sqrt, cortex_tensor_copy_noshape t s hsh] at h
  case neg =>
    simp only [cortex_tensor_sqrt, cortex_tensor_copy_some t s hsh] at h
    cases hl : cortex_sqrt_loop (t.data.take t.size) with
    | none => rw [hl] at h; simp at h
    | some l =>
      rw [hl] at h
      simp at h
      obtain ⟨rfl, rfl⟩ := h
      exact ⟨rfl, rfl, rfl, rfl⟩
  case pos =>
    simp [cortex_tensor_relu, cortex_tensor_copy_noshape t s hsh] at h
  case neg =>
    simp [cortex_tensor_relu, cortex_tensor_copy_some t s hsh] at h
    obtain ⟨rfl, rfl⟩ := h
    exact ⟨rfl, rfl, rfl, rfl⟩
  case pos =>
    simp [cortex_tensor_sigmoid, cortex_tensor_copy_noshape t s hsh] at h
  case neg =>
    simp [cortex_tensor_sigmoid, cortex_tensor_copy_some t s hsh] at h
    obtain ⟨rfl, rfl⟩ := h
    exact ⟨rfl, rfl, rfl, rfl⟩
  case pos =>
    simp [cortex_tensor_tanh, cortex_tensor_copy_noshape t s hsh] at h
  case neg =>
    simp [cortex_tensor_tanh, cortex_tensor_copy_some t s hsh] at h
    obtain ⟨rfl, rfl⟩ := h
    exact ⟨rfl, rfl, rfl, rfl⟩
  case pos =>
    simp [cortex_tensor_softmax, cortex_tensor_copy_noshape t s hsh] at h
  case neg =>
    simp only [cortex_tensor_softmax, cortex_tensor_copy_some t s hsh] at h
    cases hd : t.data.take t.size with
    | nil => rw [hd] at h; simp at h
    | cons d0 rest =>
      rw [hd] at h
      simp at h
      obtain ⟨rfl, rfl⟩ := h
      exact ⟨rfl, rfl, rfl, rfl⟩

/-- Witness for C10 at t = ([1], shape [1]) and scalar 0: add_scalar
succeeds and the metadata is preserved. -/
theorem C10_witness :
    (⟨[(1 : cortex_float_t)], [1], false⟩ : cortex_tensor_t).shape =
        (⟨[(1 : cortex_float_t)], [1], false⟩ : cortex_tensor_t).shape ∧
      (⟨[(1 : cortex_float_t)], [1], false⟩ : cortex_tensor_t).ndim =
        (⟨[(1 : cortex_float_t)], [1], false⟩ : cortex_tensor_t).ndim ∧
      (⟨[(1 : cortex_float_t)], [1], false⟩ : cortex_tensor_t).size =
        (⟨[(1 : cortex_float_t)], [1], false⟩ : cortex_tensor_t).size ∧
      (⟨[(1 : cortex_float_t)], [1], false⟩ : cortex_tensor_t).requires_grad =
        (⟨[(1 : cortex_float_t)], [1], false⟩ : cortex_tensor_t).requires_grad :=
  (C10_unary_metadata ⟨[1], [1], false⟩ 0 none).1 ⟨[1], [1], false⟩ none
    (by simp [cortex_tensor_add_scalar, cortex_tensor_copy, cortex_tensor_create,
      cortex_tensor_t.size])

/-! ## Claim C3 -/

/-- Claim C3: for equal-size well-formed tensors a and b, divide(a, b) fails
with DivisionByZero exactly when some element of b is 0.0; on that failure
no result tensor is returned (the partial buffer is freed in C), and when no
element of b is zero the result holds a_i / b_i at every flat position. -/
theorem C3_divide_by_zero (a b : cortex_tensor_t) (s : cortex_error_state)
    (ha : a.Wf) (hb : b.Wf) (hsz : a.size = b.size) :
    (((cortex_tensor_divide (some a) (some b) s).1 = none ∧
      (cortex_tensor_divide (some a) (some b) s).2 = some "Division by zero") ↔
      ∃ x ∈ b.data, x = 0) ∧
    ((∀ x ∈ b.data, x ≠ 0) →
      cortex_tensor_divide (some a) (some b) s =
        (some ⟨List.zipWith (fun x y => x / y) a.data b.data, a.shape,
          a.requires_grad⟩, s)) := by
  have hlen : a.data.length = b.data.length := by rw [ha.1, hb.1, hsz]
  rw [cortex_tensor_divide_red a b s ha hsz]
  cases hloop : cortex_divide_loop a.data b.data with
  | none =>
    have hz : ∃ x ∈ b.data, x = 0 :=
      (cortex_divide_loop_eq_none a.data b.data hlen).mp hloop
    constructor
    · simp [hz]
    · intro h
      exfalso
      obtain ⟨x, hx, hx0⟩ := hz
      exact h x hx hx0
  | some l =>
    constructor
    · constructor
      · rintro ⟨h1, -⟩
        simp at h1
      · intro hz
        rw [(cortex_divide_loop_eq_none a.data b.data hlen).mpr hz] at hloop
        cases hloop
    · intro h
      have h2 := (cortex_divide_loop_eq_some a.data b.data hlen h).symm.trans hloop
      obtain rfl := Option.some.inj h2
      rfl

/-- Witness for C3 at a = ([4], shape [1]), b = ([2], shape [1]): b has no
zero element and the division succeeds elementwise. -/
theorem C3_witness :
    cortex_tensor_divide (some ⟨[4], [1], false⟩) (some ⟨[2], [1], false⟩) none =
      (some ⟨List.zipWith (fun x y => x / y) [4] [2], [1], false⟩, none) :=
  (C3_divide_by_zero ⟨[4], [1], false⟩ ⟨[2], [1], false⟩ none ⟨rfl, by decide⟩
    ⟨rfl, by decide⟩ rfl).2 (by norm_num)

/-! ## Claim C4 -/

/-- Claim C4: reshape(t, new_shape) succeeds exactly when the product of the
new extents equals t.size (failing with ShapeMismatch otherwise), and on
success the flat element sequence is identical to that of t under the new
axis layout.  The operation is modelled from the spec, there being no
implementation under src/. -/
theorem C4_reshape (t : cortex_tensor_t) (ns : List ℕ) (s : cortex_error_state)
    (ht : t.Wf) :
    ((cortex_tensor_reshape (some t) ns s).1.isSome ↔ ns.prod = t.size) ∧
    (ns.prod ≠ t.size →
      cortex_tensor_reshape (some t) ns s =
        (none, some "Tensor size mismatch for reshape")) ∧
    (∀ r s1, cortex_tensor_reshape (some t) ns s = (some r, s1) →
      r.data = t.data ∧ r.shape = ns ∧ s1 = s) := by
  refine ⟨?_, ?_, ?_⟩
  · by_cases hp : ns.prod = t.size <;> simp [cortex_tensor_reshape, hp]
  · intro hp
    simp [cortex_tensor_reshape, hp, cortex_set_error]
  · intro r s1 h
    by_cases hp : ns.prod = t.size
    · simp [cortex_tensor_reshape, hp, ht.take_data] at h
      obtain ⟨rfl, rfl⟩ := h
      exact ⟨rfl, rfl, rfl⟩
    · simp [cortex_tensor_reshape, hp] at h

/-- Witness for C4: reshaping a flat 2-vector into shape [2, 1] keeps the
flat elements and installs the new layout. -/
theorem C4_witness :
    (⟨[(5 : cortex_float_t), 6], [2, 1], false⟩ : cortex_tensor_t).data =
        (⟨[(5 : cortex_float_t), 6], [2], false⟩ : cortex_tensor_t).data ∧
      (⟨[(5 : cortex_float_t), 6], [2, 1], false⟩ : cortex_tensor_t).shape = [2, 1] ∧
      (none : cortex_error_state) = none :=
  (C4_reshape ⟨[5, 6], [2], false⟩ [2, 1] none ⟨rfl, by decide⟩).2.2
    ⟨[5, 6], [2, 1], false⟩ none
    (by simp [cortex_tensor_reshape, cortex_tensor_t.size, List.take])

/-! ## Claim C7 -/

/-- Claim C7: each binary elementwise operation on two present well-formed
tensors fails with ShapeMismatch exactly when a.size differs from b.size;
equal-size tensors are combined position-by-position over the flat buffer
regardless of axis layout, and the result inherits the shape of a (for
divide, once no divisor element is zero). -/
theorem C7_binary_size_only (a b : cortex_tensor_t) (s : cortex_error_state)
    (ha : a.Wf) (hb : b.Wf) :
    (((cortex_tensor_add (some a) (some b) s).1 = none ∧
        (cortex_tensor_add (some a) (some b) s).2 =
          some "Tensor size mismatch for addition") ↔ a.size ≠ b.size) ∧
    (a.size = b.size →
      cortex_tensor_add (some a) (some b) s =
        (some ⟨List.zipWith (fun x y => x + y) a.data b.data, a.shape,
          a.requires_grad⟩, s)) ∧
    (((cortex_tensor_subtract (some a) (some b) s).1 = none ∧
        (cortex_tensor_subtract (some a) (some b) s).2 =
          some "Tensor size mismatch for subtraction") ↔ a.size ≠ b.size) ∧
    (a.size = b.size →
      cortex_tensor_subtract (some a) (some b) s =
        (some ⟨List.zipWith (fun x y => x - y) a.data b.data, a.shape,
          a.requires_grad⟩, s)) ∧
    (((cortex_tensor_multiply (some a) (some b) s).1 = none ∧
        (cortex_tensor_multiply (some a) (some b) s).2 =
          some "Tensor size mismatch for multiplication") ↔ a.size ≠ b.size) ∧
    (a.size = b.size →
      cortex_tensor_multiply (some a) (some b) s =
        (some ⟨List.zipWith (fun x y => x * y) a.data b.data, a.shape,
          a.requires_grad⟩, s)) ∧
    (((cortex_tensor_power (some a) (some b) s).1 = none ∧
        (cortex_tensor_power (some a) (some b) s).2 =
          some "Tensor size mismatch for power operation") ↔ a.size ≠ b.size) ∧
    (a.size = b.size →
      cortex_tensor_power (some a) (some b) s =
        (some ⟨List.zipWith (fun x y => Real.rpow x y) a.data b.data, a.shape,
          a.requires_grad⟩, s)) ∧
    (((cortex_tensor_divide (some a) (some b) s).1 = none ∧
        (cortex_tensor_divide (some a) (some b) s).2 =
          some "Tensor size mismatch for division") ↔ a.size ≠ b.size) ∧
    (a.size = b.size → (∀ x ∈ b.data, x ≠ 0) →
      cortex_tensor_divide (some a) (some b) s =
        (some ⟨List.zipWith (fun x y => x / y) a.data b.data, a.shape,
          a.requires_grad⟩, s)) := by
  by_cases hsz : a.size = b.size
  · have hdiv := C3_divide_by_zero a b s ha hb hsz
    refine ⟨?_, fun _ => cortex_tensor_add_some a b s ha hsz,
      ?_, fun _ => cortex_tensor_subtract_some a b s ha hsz,
      ?_, fun _ => cortex_tensor_multiply_some a b s ha hsz,
      ?_, fun _ => cortex_tensor_power_some a b s ha hsz,
      ?_, fun _ hz => hdiv.2 hz⟩
    · simp [cortex_tensor_add_some a b s ha hsz, hsz]
    · simp [cortex_tensor_subtract_some a b s ha hsz, hsz]
    · simp [cortex_tensor_multiply_some a b s ha hsz, hsz]
    · simp [cortex_tensor_power_some a b s ha hsz, hsz]
    · rw [cortex_tensor_divide_red a b s ha hsz]
      cases hloop : cortex_divide_loop a.data b.data with
      | none =>
        constructor
        · rintro ⟨-, h2⟩
          exact absurd (Option.some.inj h2) (by decide)
        · intro hf
          exact absurd hsz hf
      | some l => simp [hsz]
  · have hne := hsz
    refine ⟨?_, fun h => absurd h hne, ?_, fun h => absurd h hne,
      ?_, fun h => absurd h hne, ?_, fun h => absurd h hne,
      ?_, fun h => absurd h hne⟩ <;>
      simp [cortex_tensor_add, cortex_tensor_subtract, cortex_tensor_multiply,
        cortex_tensor_power, cortex_tensor_divide, hne, cortex_set_error]

/-- Witness for C7: two present tensors of equal flat size 2 but different
axis layouts (shape [2] versus shape [1, 2]) are accepted by add and
combined position-by-position; the result inherits the shape of a. -/
theorem C7_witness :
    cortex_tensor_add (some ⟨[1, 2], [2], false⟩) (some ⟨[3, 4], [1, 2], false⟩) none =
      (some ⟨List.zipWith (fun x y => x + y) [1, 2] [3, 4], [2], false⟩, none) :=
  (C7_binary_size_only ⟨[1, 2], [2], false⟩ ⟨[3, 4], [1, 2], false⟩ none
    ⟨rfl, by decide⟩ ⟨rfl, by decide⟩).2.1 rfl

/-! ## Claim C6 -/

theorem foldl_max_map_add (l : List cortex_float_t) (c : cortex_float_t) :
    ∀ d, (l.map (fun x => x + c)).foldl (fun acc x => max acc x) (d + c) =
      l.foldl (fun acc x => max acc x) d + c := by
  induction l with
  | nil => intro d; simp
  | cons x xs ih =>
    intro d
    simp only [List.map_cons, List.foldl_cons]
    rw [max_add_add_right]
    exact ih (max d x)

theorem sum_map_div (l : List cortex_float_t) (c : cortex_float_t) :
    (l.map (fun x => x / c)).sum = l.sum / c := by
  induction l with
  | nil => simp
  | cons x xs ih => simp [ih, add_div]

theorem cortex_tensor_softmax_some (t : cortex_tensor_t) (s : cortex_error_state)
    (ht : t.Wf) (d0 : cortex_float_t) (rest : List cortex_float_t)
    (hd : t.data = d0 :: rest) :
    cortex_tensor_softmax (some t) s =
      (some ⟨(t.data.map (fun x =>
          Real.exp (x - rest.foldl (fun acc x => max acc x) d0))).map
            (fun x => x / (t.data.map (fun x =>
              Real.exp (x - rest.foldl (fun acc x => max acc x) d0))).sum),
        t.shape, t.requires_grad⟩, s) := by
  rw [cortex_tensor_softmax, cortex_tensor_copy_some t s ht.2]
  simp only [ht.take_data]
  rw [hd]

/-- Claim C6: for a non-empty tensor, softmax is computed over the whole
flat buffer as exponentials of the values shifted by the global maximum,
normalized by their sum; the outputs sum to exactly 1 in the exact real
model, and softmax is invariant under adding one constant to every
element: softmax(add_scalar(t, c)) = softmax(t). -/
theorem C6_softmax_stable (t : cortex_tensor_t) (c : cortex_float_t)
    (s : cortex_error_state) (ht : t.Wf) (d0 : cortex_float_t)
    (rest : List cortex_float_t) (hd : t.data = d0 :: rest) :
    (cortex_tensor_softmax (some t) s =
      (some ⟨(t.data.map (fun x =>
          Real.exp (x - rest.foldl (fun acc x => max acc x) d0))).map
            (fun x => x / (t.data.map (fun x =>
              Real.exp (x - rest.foldl (fun acc x => max acc x) d0))).sum),
        t.shape, t.requires_grad⟩, s)) ∧
    (∀ r s1, cortex_tensor_softmax (some t) s = (some r, s1) → r.data.sum = 1) ∧
    (cortex_tensor_softmax (cortex_tensor_add_scalar (some t) c s).1
        (cortex_tensor_add_scalar (some t) c s).2 =
      cortex_tensor_softmax (some t) s) := by
  have hsm := cortex_tensor_softmax_some t s ht d0 rest hd
  have hexp_pos : ∀ x ∈ t.data.map (fun x =>
      Real.exp (x - rest.foldl (fun acc x => max acc x) d0)), 0 < x := by
    intro x hx
    obtain ⟨y, -, rfl⟩ := List.mem_map.mp hx
    exact Real.exp_pos _
  have hne : t.data.map (fun x =>
      Real.exp (x - rest.foldl (fun acc x => max acc x) d0)) ≠ [] := by
    simp [hd]
  have hS : 0 < (t.data.map (fun x =>
      Real.exp (x - rest.foldl (fun acc x => max acc x) d0))).sum :=
    List.sum_pos _ hexp_pos hne
  refine ⟨hsm, ?_, ?_⟩
  · intro r s1 h
    rw [hsm] at h
    obtain ⟨rfl, -⟩ : _ ∧ s = s1 := by
      constructor
      · exact (Option.some.inj (congrArg Prod.fst h)).symm
      · exact congrArg Prod.snd h
    show ((t.data.map fun x =>
        Real.exp (x - rest.foldl (fun acc x => max acc x) d0)).map
          (fun x => x / (t.data.map fun x =>
            Real.exp (x - rest.foldl (fun acc x => max acc x) d0)).sum)).sum = 1
    rw [sum_map_div, div_self (ne_of_gt hS)]
  · have hadd : cortex_tensor_add_scalar (some t) c s =
        (some ⟨t.data.map (fun x => x + c), t.shape, t.requires_grad⟩, s) := by
      simp [cortex_tensor_add_scalar, cortex_tensor_copy_some t s ht.2, ht.take_data]
    rw [hadd]
    have ht2 : (⟨t.data.map (fun x => x + c), t.shape,
        t.requires_grad⟩ : cortex_tensor_t).Wf :=
      ⟨by simpa [cortex_tensor_t.size] using ht.1, ht.2⟩
    have hd2 : (⟨t.data.map (fun x => x + c), t.shape,
        t.requires_grad⟩ : cortex_tensor_t).data =
        (d0 + c) :: rest.map (fun x => x + c) := by
      simp [hd]
    rw [cortex_tensor_softmax_some _ s ht2 (d0 + c) (rest.map (fun x => x + c)) hd2, hsm]
    have hmax : (rest.map (fun x => x + c)).foldl (fun acc x => max acc x) (d0 + c) =
        rest.foldl (fun acc x => max acc x) d0 + c :=
      foldl_max_map_add rest c d0
    have hexps : ((⟨t.data.map (fun x => x + c), t.shape,
        t.requires_grad⟩ : cortex_tensor_t).data.map (fun x =>
          Real.exp (x - (rest.map (fun x => x + c)).foldl
            (fun acc x => max acc x) (d0 + c)))) =
        t.data.map (fun x =>
          Real.exp (x - rest.foldl (fun acc x => max acc x) d0)) := by
      show ((t.data.map (fun x => x + c)).map _) = _
      rw [hmax, List.map_map]
      refine List.map_congr_left (fun x _ => ?_)
      show Real.exp (x + c - (rest.foldl (fun acc x => max acc x) d0 + c)) = _
      ring_nf
    rw [hexps]

/-- Witness for C6 at t = ([0], shape [1]) and c = 1. -/
theorem C6_witness :
    (cortex_tensor_softmax (some ⟨[0], [1], false⟩) none =
      (some ⟨(([0] : List cortex_float_t).map (fun x =>
          Real.exp (x - ([] : List cortex_float_t).foldl (fun acc x => max acc x) 0))).map
            (fun x => x / (([0] : List cortex_float_t).map (fun x =>
              Real.exp (x - ([] : List cortex_float_t).foldl
                (fun acc x => max acc x) 0))).sum),
        [1], false⟩, none)) ∧
    (∀ r s1, cortex_tensor_softmax (some ⟨[0], [1], false⟩) none = (some r, s1) →
      r.data.sum = 1) ∧
    (cortex_tensor_softmax
        (cortex_tensor_add_scalar (some ⟨[0], [1], false⟩) 1 none).1
        (cortex_tensor_add_scalar (some ⟨[0], [1], false⟩) 1 none).2 =
      cortex_tensor_softmax (some ⟨[0], [1], false⟩) none) :=
  C6_softmax_stable ⟨[0], [1], false⟩ 1 none ⟨rfl, by decide⟩ 0 [] rfl

/-! ## Claim C1 -/

/-- Counterexample to C1 as stated: mean over a present tensor of size 0
(shape [0], empty buffer) records no error at all — the slot stays none —
and returns normally, instead of failing with EmptyOrNullTensor; the
division sum / size at cortex.c line 505 is performed with size == 0
unguarded (IEEE NaN in C). -/
theorem C1_counterexample :
    cortex_tensor_mean (some ⟨[], [0], false⟩) none = (0, none) := by
  simp [cortex_tensor_mean, cortex_tensor_sum, cortex_tensor_t.size]

/-- Claim C1 amended: min and max fail with the EmptyOrNullTensor error when
the tensor is absent or size == 0 and return the 0.0 sentinel; sum, mean,
std and var fail only when the tensor is absent — on a present tensor they
never touch the error slot, even when size == 0, where mean, std and var
perform an unguarded division by size (NaN in IEEE arithmetic, value 0
under the exact-real division convention). -/
theorem C1_reductions_amended (t : cortex_tensor_t) (s : cortex_error_state) :
    (cortex_tensor_min none s =
      (0, some "Cannot compute min of NULL or empty tensor")) ∧
    (cortex_tensor_max none s =
      (0, some "Cannot compute max of NULL or empty tensor")) ∧
    (t.size = 0 →
      cortex_tensor_min (some t) s =
        (0, some "Cannot compute min of NULL or empty tensor") ∧
      cortex_tensor_max (some t) s =
        (0, some "Cannot compute max of NULL or empty tensor")) ∧
    (t.size ≠ 0 →
      (cortex_tensor_min (some t) s).2 = s ∧ (cortex_tensor_max (some t) s).2 = s) ∧
    (cortex_tensor_sum none s = (0, some "Cannot compute sum of NULL tensor")) ∧
    (cortex_tensor_mean none s = (0, some "Cannot compute mean of NULL tensor")) ∧
    (cortex_tensor_std none s = (0, some "Cannot compute std of NULL tensor")) ∧
    (cortex_tensor_var none s = (0, some "Cannot compute variance of NULL tensor")) ∧
    ((cortex_tensor_sum (some t) s).2 = s) ∧
    ((cortex_tensor_mean (some t) s).2 = s) ∧
    ((cortex_tensor_std (some t) s).2 = s) ∧
    ((cortex_tensor_var (some t) s).2 = s) := by
  refine ⟨rfl, rfl, ?_, ?_, rfl, rfl, rfl, rfl, rfl, rfl, rfl, rfl⟩
  · intro h0
    constructor <;> simp [cortex_tensor_min, cortex_tensor_max, h0, cortex_set_error]
  · intro h0
    constructor <;>
      cases hd : t.data.take t.size <;>
        simp [cortex_tensor_min, cortex_tensor_max, h0, hd]

/-- Witness for C1 (amended) at the empty tensor of shape [0]: min fails
with the EmptyOrNullTensor message and the 0.0 sentinel. -/
theorem C1_witness :
    cortex_tensor_min (some ⟨[], [0], false⟩) none =
        (0, some "Cannot compute min of NULL or empty tensor") ∧
      cortex_tensor_max (some ⟨[], [0], false⟩) none =
        (0, some "Cannot compute max of NULL or empty tensor") :=
  (C1_reductions_amended ⟨[], [0], false⟩ none).2.2.1 rfl

/-! ## Claim C2 -/

/-- Counterexample to C2 as stated: softmax on a present zero-size tensor
(shape [0]) performs the unchecked read of element 0 (cortex.c line 476),
which is out of bounds, and produces no valid result tensor — refuting
"for every present tensor (including a zero-size tensor) it cannot fail". -/
theorem C2_counterexample :
    (cortex_tensor_softmax (some ⟨[], [0], false⟩) none).1 = none := by
  simp [cortex_tensor_softmax, cortex_tensor_copy, cortex_tensor_create,
    cortex_tensor_t.size]

/-- Claim C2 amended: relu, sigmoid and tanh fail with NullOperand when the
tensor is absent and cannot fail on any present well-formed tensor,
including a zero-size one; softmax fails the same way when absent and
cannot fail on any present tensor with at least one element, but on a
zero-size tensor its unconditional read of element 0 is out of bounds and
no valid result is produced. -/
theorem C2_activations_amended (t : cortex_tensor_t) (s : cortex_error_state)
    (ht : t.Wf) :
    (cortex_tensor_relu none s = (none, some "Cannot compute ReLU of NULL tensor")) ∧
    (cortex_tensor_sigmoid none s =
      (none, some "Cannot compute sigmoid of NULL tensor")) ∧
    (cortex_tensor_tanh none s = (none, some "Cannot compute tanh of NULL tensor")) ∧
    (cortex_tensor_softmax none s =
      (none, some "Cannot compute softmax of NULL tensor")) ∧
    (cortex_tensor_relu (some t) s =
      (some ⟨t.data.map (fun x => max 0 x), t.shape, t.requires_grad⟩, s)) ∧
    (cortex_tensor_sigmoid (some t) s =
      (some ⟨t.data.map (fun x => 1 / (1 + Real.exp (-x))), t.shape,
        t.requires_grad⟩, s)) ∧
    (cortex_tensor_tanh (some t) s =
      (some ⟨t.data.map (fun x => Real.tanh x), t.shape, t.requires_grad⟩, s)) ∧
    ((cortex_tensor_softmax (some t) s).1.isSome ↔ t.data ≠ []) := by
  refine ⟨rfl, rfl, rfl, rfl, ?_, ?_, ?_, ?_⟩
  · simp [cortex_tensor_relu, cortex_tensor_copy_some t s ht.2, ht.take_data]
  · simp [cortex_tensor_sigmoid, cortex_tensor_copy_some t s ht.2, ht.take_data]
  · simp [cortex_tensor_tanh, cortex_tensor_copy_some t s ht.2, ht.take_data]
  · cases hd : t.data with
    | nil =>
      rw [cortex_tensor_softmax, cortex_tensor_copy_some t s ht.2]
      simp [ht.take_data, hd]
    | cons d0 rest =>
      rw [cortex_tensor_softmax_some t s ht d0 rest hd]
      simp [hd]

/-- Witness for C2 (amended) at t = ([3], shape [1]): relu succeeds and the
slot is untouched. -/
theorem C2_witness :
    cortex_tensor_relu (some ⟨[3], [1], false⟩) none =
      (some ⟨([3] : List cortex_float_t).map (fun x => max 0 x), [1], false⟩, none) :=
  (C2_activations_amended ⟨[3], [1], false⟩ none ⟨rfl, by decide⟩).2.2.2.2.1

/-! ## Claim C9 -/

/-- Claim C9: every scalar-returning operation returns exactly 0.0 on every
one of its failure paths — absent operand for all of them, empty tensor for
min and max, size mismatch for the three losses — so a 0.0 return is
indistinguishable from a legitimate zero result without consulting the
error channel. -/
theorem C9_scalar_zero_sentinel (t u : cortex_tensor_t) (s : cortex_error_state) :
    (t.size = 0 →
      (cortex_tensor_min (some t) s).1 = 0 ∧ (cortex_tensor_max (some t) s).1 = 0) ∧
    (t.size ≠ u.size →
      (cortex_mse_loss (some t) (some u) s).1 = 0 ∧
      (cortex_cross_entropy_loss (some t) (some u) s).1 = 0 ∧
      (cortex_binary_cross_entropy_loss (some t) (some u) s).1 = 0) ∧
    ((cortex_tensor_sum none s).1 = 0) ∧
    ((cortex_tensor_mean none s).1 = 0) ∧
    ((cortex_tensor_std none s).1 = 0) ∧
    ((cortex_tensor_var none s).1 = 0) ∧
    ((cortex_tensor_min none s).1 = 0) ∧
    ((cortex_tensor_max none s).1 = 0) ∧
    ((cortex_mse_loss none (some u) s).1 = 0) ∧
    ((cortex_mse_loss (some t) none s).1 = 0) ∧
    ((cortex_mse_loss none none s).1 = 0) ∧
    ((cortex_cross_entropy_loss none (some u) s).1 = 0) ∧
    ((cortex_cross_entropy_loss (some t) none s).1 = 0) ∧
    ((cortex_cross_entropy_loss none none s).1 = 0) ∧
    ((cortex_binary_cross_entropy_loss none (some u) s).1 = 0) ∧
    ((cortex_binary_cross_entropy_loss (some t) none s).1 = 0) ∧
    ((cortex_binary_cross_entropy_loss none none s).1 = 0) := by
  refine ⟨?_, ?_, rfl, rfl, rfl, rfl, rfl, rfl, rfl, rfl, rfl, rfl, rfl, rfl,
    rfl, rfl, rfl⟩
  · intro h0
    constructor <;> simp [cortex_tensor_min, cortex_tensor_max, h0, cortex_set_error]
  · intro hne
    refine ⟨?_, ?_, ?_⟩ <;>
      simp [cortex_mse_loss, cortex_cross_entropy_loss,
        cortex_binary_cross_entropy_loss, hne, cortex_set_error]

/-- Witness for C9 at two present tensors of sizes 1 and 2: the three losses
return the 0.0 sentinel on the size-mismatch failure path. -/
theorem C9_witness :
    (cortex_mse_loss (some ⟨[1], [1], false⟩) (some ⟨[1, 2], [2], false⟩) none).1 = 0 ∧
      (cortex_cross_entropy_loss (some ⟨[1], [1], false⟩)
        (some ⟨[1, 2], [2], false⟩) none).1 = 0 ∧
      (cortex_binary_cross_entropy_loss (some ⟨[1], [1], false⟩)
        (some ⟨[1, 2], [2], false⟩) none).1 = 0 :=
  (C9_scalar_zero_sentinel ⟨[1], [1], false⟩ ⟨[1, 2], [2], false⟩ none).2.1
    (by decide)

/-! ## Claim C8: error-contract lemmas, one per operation -/

theorem err_contract_create (sh : List ℕ) :
    err_contract (fun s => cortex_tensor_create sh s) := by
  intro s
  by_cases h : sh.length = 0
  · refine ⟨fun hs => ?_, fun _ => ?_⟩
    · simp [cortex_tensor_create, h, cortex_set_error] at hs
    · simp [cortex_tensor_create, h, cortex_set_error]
  · refine ⟨fun _ => ?_, fun hn => ?_⟩
    · simp [cortex_tensor_create, h]
    · simp [cortex_tensor_create, h] at hn

theorem err_contract_copy (t? : Option cortex_tensor_t) :
    err_contract (fun s => cortex_tensor_copy t? s) := by
  intro s
  cases t? with
  | none =>
    exact ⟨fun hs => by simp [cortex_tensor_copy, cortex_set_error] at hs,
      fun _ => ⟨_, rfl⟩⟩
  | some t =>
    by_cases hsh : t.shape = []
    · refine ⟨fun hs => ?_, fun _ => ?_⟩
      · simp [cortex_tensor_copy_noshape t s hsh] at hs
      · simp [cortex_tensor_copy_noshape t s hsh]
    · refine ⟨fun _ => ?_, fun hn => ?_⟩
      · simp [cortex_tensor_copy_some t s hsh]
      · simp [cortex_tensor_copy_some t s hsh] at hn

theorem err_contract_zeros (sh : List ℕ) :
    err_contract (fun s => cortex_zeros sh s) :=
  err_contract_create sh

theorem err_contract_ones (sh : List ℕ) :
    err_contract (fun s => cortex_ones sh s) := by
  intro s
  by_cases h : sh.length = 0
  · refine ⟨fun hs => ?_, fun _ => ?_⟩
    · simp [cortex_ones, cortex_tensor_create, h, cortex_set_error] at hs
    · simp [cortex_ones, cortex_tensor_create, h, cortex_set_error]
  · refine ⟨fun _ => ?_, fun hn => ?_⟩
    · simp [cortex_ones, cortex_tensor_create, h]
    · simp [cortex_ones, cortex_tensor_create, h] at hn

theorem err_contract_add (a? b? : Option cortex_tensor_t) :
    err_contract (fun s => cortex_tensor_add a? b? s) := by
  intro s
  match a?, b? with
  | none, _ =>
    exact ⟨fun hs => by simp [cortex_tensor_add, cortex_set_error] at hs,
      fun _ => ⟨_, rfl⟩⟩
  | some a, none =>
    exact ⟨fun hs => by simp [cortex_tensor_add, cortex_set_error] at hs,
      fun _ => ⟨_, rfl⟩⟩
  | some a, some b =>
    by_cases hsz : a.size = b.size
    · by_cases hsh : a.shape = []
      · refine ⟨fun hs => ?_, fun _ => ?_⟩
        · simp [cortex_tensor_add, hsz, cortex_tensor_copy_noshape a s hsh] at hs
        · simp [cortex_tensor_add, hsz, cortex_tensor_copy_noshape a s hsh]
      · refine ⟨fun _ => ?_, fun hn => ?_⟩
        · simp [cortex_tensor_add, hsz, cortex_tensor_copy_some a s hsh]
        · simp [cortex_tensor_add, hsz, cortex_tensor_copy_some a s hsh] at hn
    · refine ⟨fun hs => ?_, fun _ => ?_⟩
      · simp [cortex_tensor_add, hsz, cortex_set_error] at hs
      · simp [cortex_tensor_add, hsz, cortex_set_error]

theorem err_contract_subtract (a? b? : Option cortex_tensor_t) :
    err_contract (fun s => cortex_tensor_subtract a? b? s) := by
  intro s
  match a?, b? with
  | none, _ =>
    exact ⟨fun hs => by simp [cortex_tensor_subtract, cortex_set_error] at hs,
      fun _ => ⟨_, rfl⟩⟩
  | some a, none =>
    exact ⟨fun hs => by simp [cortex_tensor_subtract, cortex_set_error] at hs,
      fun _ => ⟨_, rfl⟩⟩
  | some a, some b =>
    by_cases hsz : a.size = b.size
    · by_cases hsh : a.shape = []
      · refine ⟨fun hs => ?_, fun _ => ?_⟩
        · simp [cortex_tensor_subtract, hsz, cortex_tensor_copy_noshape a s hsh] at hs
        · simp [cortex_tensor_subtract, hsz, cortex_tensor_copy_noshape a s hsh]
      · refine ⟨fun _ => ?_, fun hn => ?_⟩
        · simp [cortex_tensor_subtract, hsz, cortex_tensor_copy_some a s hsh]
        · simp [cortex_tensor_subtract, hsz, cortex_tensor_copy_some a s hsh] at hn
    · refine ⟨fun hs => ?_, fun _ => ?_⟩
      · simp [cortex_tensor_subtract, hsz, cortex_set_error] at hs
      · simp [cortex_tensor_subtract, hsz, cortex_set_error]

theorem err_contract_multiply (a? b? : Option cortex_tensor_t) :
    err_contract (fun s => cortex_tensor_multiply a? b? s) := by
  intro s
  match a?, b? with
  | none, _ =>
    exact ⟨fun hs => by simp [cortex_tensor_multiply, cortex_set_error] at hs,
      fun _ => ⟨_, rfl⟩⟩
  | some a, none =>
    exact ⟨fun hs => by simp [cortex_tensor_multiply, cortex_set_error] at hs,
      fun _ => ⟨_, rfl⟩⟩
  | some a, some b =>
    by_cases hsz : a.size = b.size
    · by_cases hsh : a.shape = []
      · refine ⟨fun hs => ?_, fun _ => ?_⟩
        · simp [cortex_tensor_multiply, hsz, cortex_tensor_copy_noshape a s hsh] at hs
        · simp [cortex_tensor_multiply, hsz, cortex_tensor_copy_noshape a s hsh]
      · refine ⟨fun _ => ?_, fun hn => ?_⟩
        · simp [cortex_tensor_multiply, hsz, cortex_tensor_copy_some a s hsh]
        · simp [cortex_tensor_multiply, hsz, cortex_tensor_copy_some a s hsh] at hn
    · refine ⟨fun hs => ?_, fun _ => ?_⟩
      · simp [cortex_tensor_multiply, hsz, cortex_set_error] at hs
      · simp [cortex_tensor_multiply, hsz, cortex_set_error]

theorem err_contract_power (a? b? : Option cortex_tensor_t) :
    err_contract (fun s => cortex_tensor_power a? b? s) := by
  intro s
  match a?, b? with
  | none, _ =>
    exact ⟨fun hs => by simp [cortex_tensor_power, cortex_set_error] at hs,
      fun _ => ⟨_, rfl⟩⟩
  | some a, none =>
    exact ⟨fun hs => by simp [cortex_tensor_power, cortex_set_error] at hs,
      fun _ => ⟨_, rfl⟩⟩
  | some a, some b =>
    by_cases hsz : a.size = b.size
    · by_cases hsh : a.shape = []
      · refine ⟨fun hs => ?_, fun _ => ?_⟩
        · simp [cortex_tensor_power, hsz, cortex_tensor_copy_noshape a s hsh] at hs
        · simp [cortex_tensor_power, hsz, cortex_tensor_copy_noshape a s hsh]
      · refine ⟨fun _ => ?_, fun hn => ?_⟩
        · simp [cortex_tensor_power, hsz, cortex_tensor_copy_some a s hsh]
        · simp [cortex_tensor_power, hsz, cortex_tensor_copy_some a s hsh] at hn
    · refine ⟨fun hs => ?_, fun _ => ?_⟩
      · simp [cortex_tensor_power, hsz, cortex_set_error] at hs
      · simp [cortex_tensor_power, hsz, cortex_set_error]

theorem err_contract_divide (a? b? : Option cortex_tensor_t) :
    err_contract (fun s => cortex_tensor_divide a? b? s) := by
  intro s
  match a?, b? with
  | none, _ =>
    exact ⟨fun hs => by simp [cortex_tensor_divide, cortex_set_error] at hs,
      fun _ => ⟨_, rfl⟩⟩
  | some a, none =>
    exact ⟨fun hs => by simp [cortex_tensor_divide, cortex_set_error] at hs,
      fun _ => ⟨_, rfl⟩⟩
  | some a, some b =>
    by_cases hsz : a.size = b.size
    · by_cases hsh : a.shape = []
      · refine ⟨fun hs => ?_, fun _ => ?_⟩
        · simp [cortex_tensor_divide, hsz, cortex_tensor_copy_noshape a s hsh] at hs
        · simp [cortex_tensor_divide, hsz, cortex_tensor_copy_noshape a s hsh]
      · cases hl : cortex_divide_loop (a.data.take b.size) b.data with
        | none =>
          refine ⟨fun hs => ?_, fun _ => ?_⟩
          · simp [cortex_tensor_divide, hsz, cortex_tensor_copy_some a s hsh, hl,
              cortex_set_error] at hs
          · simp [cortex_tensor_divide, hsz, cortex_tensor_copy_some a s hsh, hl,
              cortex_set_error]
        | some l =>
          refine ⟨fun _ => ?_, fun hn => ?_⟩
          · simp [cortex_tensor_divide, hsz, cortex_tensor_copy_some a s hsh, hl]
          · simp [cortex_tensor_divide, hsz, cortex_tensor_copy_some a s hsh, hl] at hn
    · refine ⟨fun hs => ?_, fun _ => ?_⟩
      · simp [cortex_tensor_divide, hsz, cortex_set_error] at hs
      · simp [cortex_tensor_divide, hsz, cortex_set_error]

theorem err_contract_add_scalar (t? : Option cortex_tensor_t) (c : cortex_float_t) :
    err_contract (fun s => cortex_tensor_add_scalar t? c s) := by
  intro s
  cases t? with
  | none =>
    exact ⟨fun hs => by simp [cortex_tensor_add_scalar, cortex_set_error] at hs,
      fun _ => ⟨_, rfl⟩⟩
  | some t =>
    by_cases hsh : t.shape = []
    · refine ⟨fun hs => ?_, fun _ => ?_⟩
      · simp [cortex_tensor_add_scalar, cortex_tensor_copy_noshape t s hsh] at hs
      · simp [cortex_tensor_add_scalar, cortex_tensor_copy_noshape t s hsh]
    · refine ⟨fun _ => ?_, fun hn => ?_⟩
      · simp [cortex_tensor_add_scalar, cortex_tensor_copy_some t s hsh]
      · simp [cortex_tensor_add_scalar, cortex_tensor_copy_some t s hsh] at hn

theorem err_contract_multiply_scalar (t? : Option cortex_tensor_t) (c : cortex_float_t) :
    err_contract (fun s => cortex_tensor_multiply_scalar t? c s) := by
  intro s
  cases t? with
  | none =>
    exact ⟨fun hs => by simp [cortex_tensor_multiply_scalar, cortex_set_error] at hs,
      fun _ => ⟨_, rfl⟩⟩
  | some t =>
    by_cases hsh : t.shape = []
    · refine ⟨fun hs => ?_, fun _ => ?_⟩
      · simp [cortex_tensor_multiply_scalar, cortex_tensor_copy_noshape t s hsh] at hs
      · simp [cortex_tensor_multiply_scalar, cortex_tensor_copy_noshape t s hsh]
    · refine ⟨fun _ => ?_, fun hn => ?_⟩
      · simp [cortex_tensor_multiply_scalar, cortex_tensor_copy_some t s hsh]
      · simp [cortex_tensor_multiply_scalar, cortex_tensor_copy_some t s hsh] at hn

theorem err_contract_matmul (a? b? : Option cortex_tensor_t) :
    err_contract (fun s => cortex_tensor_matmul a? b? s) := by
  intro s
  match a?, b? with
  | none, _ =>
    exact ⟨fun hs => by simp [cortex_tensor_matmul, cortex_set_error] at hs,
      fun _ => ⟨_, rfl⟩⟩
  | some a, none =>
    exact ⟨fun hs => by simp [cortex_tensor_matmul, cortex_set_error] at hs,
      fun _ => ⟨_, rfl⟩⟩
  | some a, some b =>
    by_cases h2 : a.ndim ≠ 2 ∨ b.ndim ≠ 2
    · refine ⟨fun hs => ?_, fun _ => ?_⟩
      · simp [cortex_tensor_matmul, h2, cortex_set_error] at hs
      · simp [cortex_tensor_matmul, h2, cortex_set_error]
    · by_cases hin : a.shape[1]?.getD 0 = b.shape[0]?.getD 0
      · refine ⟨fun _ => ?_, fun hn => ?_⟩
        · simp [cortex_tensor_matmul, h2, hin]
        · simp [cortex_tensor_matmul, h2, hin] at hn
      · refine ⟨fun hs => ?_, fun _ => ?_⟩
        · simp [cortex_tensor_matmul, h2, hin, cortex_set_error] at hs
        · simp [cortex_tensor_matmul, h2, hin, cortex_set_error]

theorem err_contract_transpose (t? : Option cortex_tensor_t) :
    err_contract (fun s => cortex_tensor_transpose t? s) := by
  intro s
  cases t? with
  | none =>
    exact ⟨fun hs => by simp [cortex_tensor_transpose, cortex_set_error] at hs,
      fun _ => ⟨_, rfl⟩⟩
  | some t =>
    by_cases h2 : t.ndim ≠ 2
    · refine ⟨fun hs => ?_, fun _ => ?_⟩
      · simp [cortex_tensor_transpose, h2, cortex_set_error] at hs
      · simp [cortex_tensor_transpose, h2, cortex_set_error]
    · refine ⟨fun _ => ?_, fun hn => ?_⟩
      · simp [cortex_tensor_transpose, h2]
      · simp [cortex_tensor_transpose, h2] at hn

theorem err_contract_exp (t? : Option cortex_tensor_t) :
    err_contract (fun s => cortex_tensor_exp t? s) := by
  intro s
  cases t? with
  | none =>
    exact ⟨fun hs => by simp [cortex_tensor_exp, cortex_set_error] at hs,
      fun _ => ⟨_, rfl⟩⟩
  | some t =>
    by_cases hsh : t.shape = []
    · refine ⟨fun hs => ?_, fun _ => ?_⟩
      · simp [cortex_tensor_exp, cortex_tensor_copy_noshape t s hsh] at hs
      · simp [cortex_tensor_exp, cortex_tensor_copy_noshape t s hsh]
    · refine ⟨fun _ => ?_, fun hn => ?_⟩
      · simp [cortex_tensor_exp, cortex_tensor_copy_some t s hsh]
      · simp [cortex_tensor_exp, cortex_tensor_copy_some t s hsh] at hn

theorem err_contract_log (t? : Option cortex_tensor_t) :
    err_contract (fun s => cortex_tensor_log t? s) := by
  intro s
  cases t? with
  | none =>
    exact ⟨fun hs => by simp [cortex_tensor_log, cortex_set_error] at hs,
      fun _ => ⟨_, rfl⟩⟩
  | some t =>
    by_cases hsh : t.shape = []
    · refine ⟨fun hs => ?_, fun _ => ?_⟩
      · simp [cortex_tensor_log, cortex_tensor_copy_noshape t s hsh] at hs
      · simp [cortex_tensor_log, cortex_tensor_copy_noshape t s hsh]
    · cases hl : cortex_log_loop (t.data.take t.size) with
      | none =>
        refine ⟨fun hs => ?_, fun _ => ?_⟩
        · simp [cortex_tensor_log, cortex_tensor_copy_some t s hsh, hl,
            cortex_set_error] at hs
        · simp [cortex_tensor_log, cortex_tensor_copy_some t s hsh, hl,
            cortex_set_error]
      | some l =>
        refine ⟨fun _ => ?_, fun hn => ?_⟩
        · simp [cortex_tensor_log, cortex_tensor_copy_some t s hsh, hl]
        · simp [cortex_tensor_log, cortex_tensor_copy_some t s hsh, hl] at hn

theorem err_contract_sqrt (t? : Option cortex_tensor_t) :
    err_contract (fun s => cortex_tensor_sqrt t? s) := by
  intro s
  cases t? with
  | none =>
    exact ⟨fun hs => by simp [cortex_tensor_sqrt, cortex_set_error] at hs,
      fun _ => ⟨_, rfl⟩⟩
  | some t =>
    by_cases hsh : t.shape = []
    · refine ⟨fun hs => ?_, fun _ => ?_⟩
      · simp [cortex_tensor_sqrt, cortex_tensor_copy_noshape t s hsh] at hs
      · simp [cortex_tensor_sqrt, cortex_tensor_copy_noshape t s hsh]
    · cases hl : cortex_sqrt_loop (t.data.take t.size) with
      | none =>
        refine ⟨fun hs => ?_, fun _ => ?_⟩
        · simp [cortex_tensor_sqrt, cortex_tensor_copy_some t s hsh, hl,
            cortex_set_error] at hs
        · simp [cortex_tensor_sqrt, cortex_tensor_copy_some t s hsh, hl,
            cortex_set_error]
      | some l =>
        refine ⟨fun _ => ?_, fun hn => ?_⟩
        · simp [cortex_tensor_sqrt, cortex_tensor_copy_some t s hsh, hl]
        · simp [cortex_tensor_sqrt, cortex_tensor_copy_some t s hsh, hl] at hn

theorem err_contract_relu (t? : Option cortex_tensor_t) :
    err_contract (fun s => cortex_tensor_relu t? s) := by
  intro s
  cases t? with
  | none =>
    exact ⟨fun hs => by simp [cortex_tensor_relu, cortex_set_error] at hs,
      fun _ => ⟨_, rfl⟩⟩
  | some t =>
    by_cases hsh : t.shape = []
    · refine ⟨fun hs => ?_, fun _ => ?_⟩
      · simp [cortex_tensor_relu, cortex_tensor_copy_noshape t s hsh] at hs
      · simp [cortex_tensor_relu, cortex_tensor_copy_noshape t s hsh]
    · refine ⟨fun _ => ?_, fun hn => ?_⟩
      · simp [cortex_tensor_relu, cortex_tensor_copy_some t s hsh]
      · simp [cortex_tensor_relu, cortex_tensor_copy_some t s hsh] at hn

theorem err_contract_sigmoid (t? : Option cortex_tensor_t) :
    err_contract (fun s => cortex_tensor_sigmoid t? s) := by
  intro s
  cases t? with
  | none =>
    exact ⟨fun hs => by simp [cortex_tensor_sigmoid, cortex_set_error] at hs,
      fun _ => ⟨_, rfl⟩⟩
  | some t =>
    by_cases hsh : t.shape = []
    · refine ⟨fun hs => ?_, fun _ => ?_⟩
      · simp [cortex_tensor_sigmoid, cortex_tensor_copy_noshape t s hsh] at hs
      · simp [cortex_tensor_sigmoid, cortex_tensor_copy_noshape t s hsh]
    · refine ⟨fun _ => ?_, fun hn => ?_⟩
      · simp [cortex_tensor_sigmoid, cortex_tensor_copy_some t s hsh]
      · simp [cortex_tensor_sigmoid, cortex_tensor_copy_some t s hsh] at hn

theorem err_contract_tanh (t? : Option cortex_tensor_t) :
    err_contract (fun s => cortex_tensor_tanh t? s) := by
  intro s
  cases t? with
  | none =>
    exact ⟨fun hs => by simp [cortex_tensor_tanh, cortex_set_error] at hs,
      fun _ => ⟨_, rfl⟩⟩
  | some t =>
    by_cases hsh : t.shape = []
    · refine ⟨fun hs => ?_, fun _ => ?_⟩
      · simp [cortex_tensor_tanh, cortex_tensor_copy_noshape t s hsh] at hs
      · simp [cortex_tensor_tanh, cortex_tensor_copy_noshape t s hsh]
    · refine ⟨fun _ => ?_, fun hn => ?_⟩
      · simp [cortex_tensor_tanh, cortex_tensor_copy_some t s hsh]
      · simp [cortex_tensor_tanh, cortex_tensor_copy_some t s hsh] at hn

theorem err_contract_softmax_none :
    err_contract (fun s => cortex_tensor_softmax none s) :=
  fun _ => ⟨fun hs => by simp [cortex_tensor_softmax, cortex_set_error] at hs,
    fun _ => ⟨_, rfl⟩⟩

theorem err_contract_softmax_some (t : cortex_tensor_t)
    (h : t.data.take t.size ≠ []) :
    err_contract (fun s => cortex_tensor_softmax (some t) s) := by
  intro s
  by_cases hsh : t.shape = []
  · refine ⟨fun hs => ?_, fun _ => ?_⟩
    · simp [cortex_tensor_softmax, cortex_tensor_copy_noshape t s hsh] at hs
    · simp [cortex_tensor_softmax, cortex_tensor_copy_noshape t s hsh]
  · cases hd : t.data.take t.size with
    | nil => exact absurd hd h
    | cons d0 rest =>
      refine ⟨fun _ => ?_, fun hn => ?_⟩
      · simp [cortex_tensor_softmax, cortex_tensor_copy_some t s hsh, hd]
      · simp [cortex_tensor_softmax, cortex_tensor_copy_some t s hsh, hd] at hn

theorem err_contract_reshape (t? : Option cortex_tensor_t) (ns : List ℕ) :
    err_contract (fun s => cortex_tensor_reshape t? ns s) := by
  intro s
  cases t? with
  | none =>
    exact ⟨fun hs => by simp [cortex_tensor_reshape, cortex_set_error] at hs,
      fun _ => ⟨_, rfl⟩⟩
  | some t =>
    by_cases hp : ns.prod = t.size
    · refine ⟨fun _ => ?_, fun hn => ?_⟩
      · simp [cortex_tensor_reshape, hp]
      · simp [cortex_tensor_reshape, hp] at hn
    · refine ⟨fun hs => ?_, fun _ => ?_⟩
      · simp [cortex_tensor_reshape, hp, cortex_set_error] at hs
      · simp [cortex_tensor_reshape, hp, cortex_set_error]

theorem scalar_err_sum (t? : Option cortex_tensor_t) :
    scalar_err_contract (t? = none) (fun s => cortex_tensor_sum t? s) := by
  intro s
  constructor
  · rintro rfl
    exact ⟨_, rfl⟩
  · intro hn
    cases t? with
    | none => exact absurd rfl hn
    | some t => rfl

theorem scalar_err_mean (t? : Option cortex_tensor_t) :
    scalar_err_contract (t? = none) (fun s => cortex_tensor_mean t? s) := by
  intro s
  constructor
  · rintro rfl
    exact ⟨_, rfl⟩
  · intro hn
    cases t? with
    | none => exact absurd rfl hn
    | some t => rfl

theorem scalar_err_std (t? : Option cortex_tensor_t) :
    scalar_err_contract (t? = none) (fun s => cortex_tensor_std t? s) := by
  intro s
  constructor
  · rintro rfl
    exact ⟨_, rfl⟩
  · intro hn
    cases t? with
    | none => exact absurd rfl hn
    | some t => rfl

theorem scalar_err_var (t? : Option cortex_tensor_t) :
    scalar_err_contract (t? = none) (fun s => cortex_tensor_var t? s) := by
  intro s
  constructor
  · rintro rfl
    exact ⟨_, rfl⟩
  · intro hn
    cases t? with
    | none => exact absurd rfl hn
    | some t => rfl

theorem scalar_err_min (t? : Option cortex_tensor_t) :
    scalar_err_contract (t? = none ∨ ∃ t, t? = some t ∧ t.size = 0)
      (fun s => cortex_tensor_min t? s) := by
  intro s
  constructor
  · rintro (rfl | ⟨t, rfl, h0⟩)
    · exact ⟨_, rfl⟩
    · simp [cortex_tensor_min, h0, cortex_set_error]
  · intro hn
    cases t? with
    | none => exact absurd (Or.inl rfl) hn
    | some t =>
      have h0 : t.size ≠ 0 := fun h => hn (Or.inr ⟨t, rfl, h⟩)
      cases hd : t.data.take t.size with
      | nil => simp [cortex_tensor_min, h0, hd]
      | cons d0 rest => simp [cortex_tensor_min, h0, hd]

theorem scalar_err_max (t? : Option cortex_tensor_t) :
    scalar_err_contract (t? = none ∨ ∃ t, t? = some t ∧ t.size = 0)
      (fun s => cortex_tensor_max t? s) := by
  intro s
  constructor
  · rintro (rfl | ⟨t, rfl, h0⟩)
    · exact ⟨_, rfl⟩
    · simp [cortex_tensor_max, h0, cortex_set_error]
  · intro hn
    cases t? with
    | none => exact absurd (Or.inl rfl) hn
    | some t =>
      have h0 : t.size ≠ 0 := fun h => hn (Or.inr ⟨t, rfl, h⟩)
      cases hd : t.data.take t.size with
      | nil => simp [cortex_tensor_max, h0, hd]
      | cons d0 rest => simp [cortex_tensor_max, h0, hd]

theorem scalar_err_mse (p? q? : Option cortex_tensor_t) :
    scalar_err_contract
      (p? = none ∨ q? = none ∨ ∃ p q, p? = some p ∧ q? = some q ∧ p.size ≠ q.size)
      (fun s => cortex_mse_loss p? q? s) := by
  intro s
  constructor
  · rintro (rfl | rfl | ⟨p, q, rfl, rfl, hne⟩)
    · exact ⟨_, rfl⟩
    · cases p? with
      | none => exact ⟨_, rfl⟩
      | some p => exact ⟨_, rfl⟩
    · simp [cortex_mse_loss, hne, cortex_set_error]
  · intro hn
    match p?, q? with
    | none, _ => exact absurd (Or.inl rfl) hn
    | some p, none => exact absurd (Or.inr (Or.inl rfl)) hn
    | some p, some q =>
      have hsz : p.size = q.size := by
        by_contra hne
        exact hn (Or.inr (Or.inr ⟨p, q, rfl, rfl, hne⟩))
      simp [cortex_mse_loss, hsz]

theorem scalar_err_ce (p? q? : Option cortex_tensor_t) :
    scalar_err_contract
      (p? = none ∨ q? = none ∨ ∃ p q, p? = some p ∧ q? = some q ∧ p.size ≠ q.size)
      (fun s => cortex_cross_entropy_loss p? q? s) := by
  intro s
  constructor
  · rintro (rfl | rfl | ⟨p, q, rfl, rfl, hne⟩)
    · exact ⟨_, rfl⟩
    · cases p? with
      | none => exact ⟨_, rfl⟩
      | some p => exact ⟨_, rfl⟩
    · simp [cortex_cross_entropy_loss, hne, cortex_set_error]
  · intro hn
    match p?, q? with
    | none, _ => exact absurd (Or.inl rfl) hn
    | some p, none => exact absurd (Or.inr (Or.inl rfl)) hn
    | some p, some q =>
      have hsz : p.size = q.size := by
        by_contra hne
        exact hn (Or.inr (Or.inr ⟨p, q, rfl, rfl, hne⟩))
      simp [cortex_cross_entropy_loss, hsz]

theorem scalar_err_bce (p? q? : Option cortex_tensor_t) :
    scalar_err_contract
      (p? = none ∨ q? = none ∨ ∃ p q, p? = some p ∧ q? = some q ∧ p.size ≠ q.size)
      (fun s => cortex_binary_cross_entropy_loss p? q? s) := by
  intro s
  constructor
  · rintro (rfl | rfl | ⟨p, q, rfl, rfl, hne⟩)
    · exact ⟨_, rfl⟩
    · cases p? with
      | none => exact ⟨_, rfl⟩
      | some p => exact ⟨_, rfl⟩
    · simp [cortex_binary_cross_entropy_loss, hne, cortex_set_error]
  · intro hn
    match p?, q? with
    | none, _ => exact absurd (Or.inl rfl) hn
    | some p, none => exact absurd (Or.inr (Or.inl rfl)) hn
    | some p, some q =>
      have hsz : p.size = q.size := by
        by_contra hne
        exact hn (Or.inr (Or.inr ⟨p, q, rfl, rfl, hne⟩))
      simp [cortex_binary_cross_entropy_loss, hsz]

/-- Claim C8: every fallible operation of the engine overwrites the
process-wide last-error slot with a message when it fails and leaves it
completely untouched when it succeeds.  For tensor-returning operations,
failure is a NULL (none) result; for scalar-returning operations the stated
failure condition is the operation's guard.  The softmax conjunct is stated
for a non-empty buffer: on a zero-size tensor softmax hits undefined
behavior (see C2) before any defined failure or success is reached.
Operations not listed fail only through allocation, which the model treats
as always succeeding, or are nondeterministic (randn). -/
theorem C8_error_slot_discipline :
    (∀ sh, err_contract (fun s => cortex_tensor_create sh s)) ∧
    (∀ t?, err_contract (fun s => cortex_tensor_copy t? s)) ∧
    (∀ sh, err_contract (fun s => cortex_zeros sh s)) ∧
    (∀ sh, err_contract (fun s => cortex_ones sh s)) ∧
    (∀ a? b?, err_contract (fun s => cortex_tensor_add a? b? s)) ∧
    (∀ a? b?, err_contract (fun s => cortex_tensor_subtract a? b? s)) ∧
    (∀ a? b?, err_contract (fun s => cortex_tensor_multiply a? b? s)) ∧
    (∀ a? b?, err_contract (fun s => cortex_tensor_divide a? b? s)) ∧
    (∀ a? b?, err_contract (fun s => cortex_tensor_power a? b? s)) ∧
    (∀ t? c, err_contract (fun s => cortex_tensor_add_scalar t? c s)) ∧
    (∀ t? c, err_contract (fun s => cortex_tensor_multiply_scalar t? c s)) ∧
    (∀ a? b?, err_contract (fun s => cortex_tensor_matmul a? b? s)) ∧
    (∀ t?, err_contract (fun s => cortex_tensor_transpose t? s)) ∧
    (∀ t?, err_contract (fun s => cortex_tensor_exp t? s)) ∧
    (∀ t?, err_contract (fun s => cortex_tensor_log t? s)) ∧
    (∀ t?, err_contract (fun s => cortex_tensor_sqrt t? s)) ∧
    (∀ t?, err_contract (fun s => cortex_tensor_relu t? s)) ∧
    (∀ t?, err_contract (fun s => cortex_tensor_sigmoid t? s)) ∧
    (∀ t?, err_contract (fun s => cortex_tensor_tanh t? s)) ∧
    err_contract (fun s => cortex_tensor_softmax none s) ∧
    (∀ t, t.data.take t.size ≠ [] →
      err_contract (fun s => cortex_tensor_softmax (some t) s)) ∧
    (∀ t? ns, err_contract (fun s => cortex_tensor_reshape t? ns s)) ∧
    (∀ t?, scalar_err_contract (t? = none) (fun s => cortex_tensor_sum t? s)) ∧
    (∀ t?, scalar_err_contract (t? = none) (fun s => cortex_tensor_mean t? s)) ∧
    (∀ t?, scalar_err_contract (t? = none) (fun s => cortex_tensor_std t? s)) ∧
    (∀ t?, scalar_err_contract (t? = none) (fun s => cortex_tensor_var t? s)) ∧
    (∀ t?, scalar_err_contract (t? = none ∨ ∃ t, t? = some t ∧ t.size = 0)
      (fun s => cortex_tensor_min t? s)) ∧
    (∀ t?, scalar_err_contract (t? = none ∨ ∃ t, t? = some t ∧ t.size = 0)
      (fun s => cortex_tensor_max t? s)) ∧
    (∀ p? q?, scalar_err_contract
      (p? = none ∨ q? = none ∨ ∃ p q, p? = some p ∧ q? = some q ∧ p.size ≠ q.size)
      (fun s => cortex_mse_loss p? q? s)) ∧
    (∀ p? q?, scalar_err_contract
      (p? = none ∨ q? = none ∨ ∃ p q, p? = some p ∧ q? = some q ∧ p.size ≠ q.size)
      (fun s => cortex_cross_entropy_loss p? q? s)) ∧
    (∀ p? q?, scalar_err_contract
      (p? = none ∨ q? = none ∨ ∃ p q, p? = some p ∧ q? = some q ∧ p.size ≠ q.size)
      (fun s => cortex_binary_cross_entropy_loss p? q? s)) :=
  ⟨err_contract_create, err_contract_copy, err_contract_zeros, err_contract_ones,
    err_contract_add, err_contract_subtract, err_contract_multiply,
    err_contract_divide, err_contract_power, err_contract_add_scalar,
    err_contract_multiply_scalar, err_contract_matmul, err_contract_transpose,
    err_contract_exp, err_contract_log, err_contract_sqrt, err_contract_relu,
    err_contract_sigmoid, err_contract_tanh, err_contract_softmax_none,
    err_contract_softmax_some, err_contract_reshape, scalar_err_sum,
    scalar_err_mean, scalar_err_std, scalar_err_var, scalar_err_min,
    scalar_err_max, scalar_err_mse, scalar_err_ce, scalar_err_bce⟩

/-- Witness for C8: a successful add of two concrete tensors leaves the
error slot exactly as it was (here: none). -/
theorem C8_witness :
    cortex_tensor_add (some ⟨[1], [1], false⟩) (some ⟨[1], [1], false⟩) none =
        (some ⟨[2], [1], false⟩, none) ∧
      (cortex_tensor_add (some ⟨[1], [1], false⟩) (some ⟨[1], [1], false⟩) none).2 =
        none := by
  have hval : cortex_tensor_add (some ⟨[1], [1], false⟩)
      (some ⟨[1], [1], false⟩) none = (some ⟨[2], [1], false⟩, none) := by
    simp [cortex_tensor_add, cortex_tensor_copy, cortex_tensor_create,
      cortex_tensor_t.size]
    norm_num
  refine ⟨hval, ?_⟩
  exact (C8_error_slot_discipline.2.2.2.2.1 (some ⟨[1], [1], false⟩)
      (some ⟨[1], [1], false⟩) none).1
    (by
      show (cortex_tensor_add (some ⟨[1], [1], false⟩)
        (some ⟨[1], [1], false⟩) none).1.isSome = true
      rw [hval]
      rfl)

end
